import Mathlib

/-!
# Samsung NASA climate synchroniser: a shallow embedding of `nasa_climate.cpp`

The C++ class `NASA_Climate` is embedded as a record (`NASA_Climate`) holding the
climate state it inherits from the framework, its own members, and which of its
optional entity pointers are non-null.  Every member function becomes a pure
function returning the new object together with the list of externally visible
effects (`publish_state()` and the commands sent to the wired entities), in the
order in which the C++ code performs them.

Conventions
* `float` is IEEE-754 binary32, embedded as its three bit fields (`F32`); the
  C++ operator `!=` is `F32.ne` (a NaN differs from everything, itself included,
  and the two zeros are equal).  `static_cast<int>` is `static_cast_int` where
  the C++ conversion is defined; where it is undefined (NaN, infinities, values
  outside `int`) the program still runs the conversion, and the integer it then
  yields is a parameter (`undefined_int`) of `static_cast_int_on`.
* A pointer member is embedded by whether it is non-null; the two select
  entities carry their option list, the mapping object carries its table.
* The options of a select are `const char *`.  The preset listener turns its
  option into a `std::string`, so a preset option is embedded by its text.  The
  mode-select listener compares its option with string literals, which in C++
  compares the two addresses: a mode-select option is embedded by its address,
  and a `Memory` gives the text stored at each address and the addresses of
  the five literals of the listener.
* Commands sent to an entity are recorded as effects; whatever state change the
  entity reports back later is a separate incoming event.
* The capability descriptor built by `traits` holds sets (features, modes,
  built-in presets) and the list of custom preset labels.
-/

namespace samsung_nasa

/-- Modelled from the spec: the mode enum of the framework header (not under
src/), with the six values the spec lists and the source names it uses. -/
inductive ClimateMode
  | CLIMATE_MODE_OFF
  | CLIMATE_MODE_HEAT
  | CLIMATE_MODE_COOL
  | CLIMATE_MODE_DRY
  | CLIMATE_MODE_FAN_ONLY
  | CLIMATE_MODE_AUTO
  deriving DecidableEq

/-- Modelled from the spec: the action enum of the framework header (not under
src/): the observed physical activity (off, idle, heating, cooling, drying,
fanning). -/
inductive ClimateAction
  | CLIMATE_ACTION_OFF
  | CLIMATE_ACTION_COOLING
  | CLIMATE_ACTION_HEATING
  | CLIMATE_ACTION_IDLE
  | CLIMATE_ACTION_DRYING
  | CLIMATE_ACTION_FAN
  deriving DecidableEq

/-- Modelled from the spec: the built-in preset indicator of the framework
header (not under src/); only the identity of a built-in preset matters here,
so it is its underlying enum code. -/
structure ClimatePreset where
  code : Nat
  deriving DecidableEq

/-- An IEEE-754 binary32 value (the C++ `float`), as its sign bit, biased
exponent and fraction field. -/
structure F32 where
  sign : Bool
  exponent : Fin 256
  mantissa : Fin 8388608
  deriving DecidableEq

/-- A NaN: exponent field all ones and a non-zero fraction. -/
def F32.isnan (x : F32) : Bool :=
  decide (x.exponent.val = 255) && decide (x.mantissa.val ≠ 0)

/-- Positive or negative zero. -/
def F32.iszero (x : F32) : Bool :=
  decide (x.exponent.val = 0) && decide (x.mantissa.val = 0)

/-- The C++ operator `!=` on `float`: true when either operand is a NaN;
otherwise false exactly when the operands have the same bits or are both zero. -/
def F32.ne (a b : F32) : Bool :=
  a.isnan || b.isnan || !(decide (a = b) || (a.iszero && b.iszero))

/-- The integer part of the magnitude of a finite value (truncation toward
zero): the significand `2^23 + mantissa` scaled by `2^(exponent - 150)`;
subnormals and zeros have magnitude below one. -/
def F32.trunc_magnitude (x : F32) : Nat :=
  if x.exponent.val = 0 then 0
  else if 150 ≤ x.exponent.val then (8388608 + x.mantissa.val) * 2 ^ (x.exponent.val - 150)
  else (8388608 + x.mantissa.val) / 2 ^ (150 - x.exponent.val)

/-- The magnitude of a finite value multiplied by 2^150, which is an integer:
the significand (with the hidden bit for a normal value) times two to the
biased exponent; a subnormal value is its fraction field times 2^(-149). -/
def F32.scaled_magnitude (x : F32) : Nat :=
  if x.exponent.val = 0 then x.mantissa.val * 2
  else (8388608 + x.mantissa.val) * 2 ^ x.exponent.val

/-- The C++ conversion `static_cast<int>(state)` to a 32-bit `int`: truncation
toward zero; `none` where the conversion is undefined (NaN, infinities, and
values whose integer part does not fit in `int`). -/
def static_cast_int (x : F32) : Option Int :=
  if x.exponent.val = 255 then none
  else if x.sign then
    (if x.trunc_magnitude ≤ 2147483648 then some (-(x.trunc_magnitude : Int)) else none)
  else
    (if x.trunc_magnitude ≤ 2147483647 then some (x.trunc_magnitude : Int) else none)

/-- The C++ conversion `static_cast<int>(state)` as the program runs it on every
reading: the truncation where it is defined, and otherwise the integer
`undefined_int state` that the conversion instruction of the platform yields
(the C++ standard leaves it open). -/
def static_cast_int_on (undefined_int : F32 → Int) (x : F32) : Int :=
  match static_cast_int x with
  | some code => code
  | none => undefined_int x

/-- Where the conversion is undefined, a saturating conversion instruction
(as VCVT on ARM) yields 0 for a NaN and otherwise the nearest end of the range
of `int`. -/
def undefined_int_saturating (x : F32) : Int :=
  if x.isnan then 0 else if x.sign then -2147483648 else 2147483647

/-- Where the conversion is undefined, the conversion instruction of x86
(CVTTSS2SI) yields the bit pattern 0x80000000, the least `int`. -/
def undefined_int_indefinite (_x : F32) : Int := -2147483648

/-- The memory the listener compares addresses in: the text of the C string
stored at each address, and the addresses at which the five string literals of
the mode-select listener (lines 33-41) are stored, each holding its text. -/
structure Memory where
  text_at : Nat → String
  lit_heat : Nat
  lit_cool : Nat
  lit_dry : Nat
  lit_fan : Nat
  lit_auto : Nat
  heat_text : text_at lit_heat = "Heat"
  cool_text : text_at lit_cool = "Cool"
  dry_text : text_at lit_dry = "Dry"
  fan_text : text_at lit_fan = "Fan"
  auto_text : text_at lit_auto = "Auto"

/-- The object: the climate state inherited from the framework base class
(`mode`, `action`, the two temperatures, the custom preset and the built-in
`preset`), the member `last_active_mode_`, and the optional entities
(`true` / `some` when the pointer is non-null).  The preset select carries the
texts of its options, the mode select the addresses of its options. -/
structure NASA_Climate where
  mode : ClimateMode
  action : ClimateAction
  current_temperature : F32
  target_temperature : F32
  custom_preset : Option String
  preset : Option ClimatePreset
  last_active_mode_ : ClimateMode
  power_ : Bool
  target_temp_ : Bool
  current_temp_ : Bool
  action_sens_ : Bool
  mappings_ : Option (List (Int × ClimateAction))
  select_presets_ : Option (List String)
  mode_select_ : Option (List Nat)
  supported_modes_ : List ClimateMode
  deriving DecidableEq

/-- What a handler does that is visible outside the object, in program order:
`publish_state()`, and the commands to the power switch, the target-temperature
number and the two selects.  A select call carries the option that was set on
it before `perform()` (`none` when no `set_option` was executed, or when the
label read back through `get_custom_preset()` is absent). -/
inductive Effect
  | publish_state
  | power_turn_on
  | power_turn_off
  | mode_select_perform (option : Option String)
  | target_temp_set_value (value : F32)
  | select_presets_perform (option : Option String)
  deriving DecidableEq

/-- The framework setter `set_custom_preset_` (base class, not under src/),
taken as a parameter: from the current custom preset, the current built-in
preset and the requested label it yields whether anything changed and the new
values of those two fields. -/
abbrev PresetSetter :=
  Option String → Option ClimatePreset → String → Bool × Option String × Option ClimatePreset

/-- Modelled from the spec: the setter for the custom preset as section 4.3
describes a gatekeeper (missing: the framework base class): compare the
candidate with the current custom preset, overwrite and report true only if
different, otherwise report false and leave everything untouched. -/
def set_custom_preset_spec : PresetSetter :=
  fun custom_preset preset new_value =>
    if custom_preset ≠ some new_value then (true, some new_value, preset)
    else (false, custom_preset, preset)

/-- A control request (`climate::ClimateCall`): each of the three parts is
optional. -/
structure ClimateCall where
  mode : Option ClimateMode
  target_temperature : Option F32
  custom_preset : Option String
  deriving DecidableEq

open ClimateMode ClimateAction Effect

/-- Member `update_action` (lines 170-176). -/
def update_action (self : NASA_Climate) (new_action : ClimateAction) : Bool × NASA_Climate :=
  if self.action ≠ new_action then (true, { self with action := new_action })
  else (false, self)

/-- Member `update_mode` (lines 178-184). -/
def update_mode (self : NASA_Climate) (new_mode : ClimateMode) : Bool × NASA_Climate :=
  if self.mode ≠ new_mode then (true, { self with mode := new_mode })
  else (false, self)

/-- Member `update_current_temp` (lines 186-192). -/
def update_current_temp (self : NASA_Climate) (new_temp : F32) : Bool × NASA_Climate :=
  if F32.ne self.current_temperature new_temp then
    (true, { self with current_temperature := new_temp })
  else (false, self)

/-- Member `update_target_temp` (lines 194-200). -/
def update_target_temp (self : NASA_Climate) (new_temp : F32) : Bool × NASA_Climate :=
  if F32.ne self.target_temperature new_temp then
    (true, { self with target_temperature := new_temp })
  else (false, self)

/-- Member `update_custom_preset` (line 202): delegates to the framework
setter. -/
def update_custom_preset (set_custom_preset_ : PresetSetter) (self : NASA_Climate)
    (new_value : String) : Bool × NASA_Climate :=
  let r := set_custom_preset_ self.custom_preset self.preset new_value
  (r.1, { self with custom_preset := r.2.1, preset := r.2.2 })

/-- The effect list of `if (updated) publish_state();`. -/
def publish_if (updated : Bool) : List Effect :=
  if updated then [publish_state] else []

/-- Member `on_power` (lines 57-77). -/
def on_power (self : NASA_Climate) (state : Bool) : NASA_Climate × List Effect :=
  if state then
    if self.mode = CLIMATE_MODE_OFF then
      let r := update_mode self self.last_active_mode_
      (r.2, publish_if r.1)
    else (self, [])
  else
    let self1 :=
      if self.mode ≠ CLIMATE_MODE_OFF then { self with last_active_mode_ := self.mode }
      else self
    let r := update_mode self1 CLIMATE_MODE_OFF
    (r.2, publish_if r.1)

/-- Member `on_target_temp` (lines 79-82). -/
def on_target_temp (self : NASA_Climate) (state : F32) : NASA_Climate × List Effect :=
  let r := update_target_temp self state
  (r.2, publish_if r.1)

/-- Member `on_current_temp` (lines 84-87). -/
def on_current_temp (self : NASA_Climate) (state : F32) : NASA_Climate × List Effect :=
  let r := update_current_temp self state
  (r.2, publish_if r.1)

/-- Member `on_preset_select` (lines 89-92); the index is not used. -/
def on_preset_select (set_custom_preset_ : PresetSetter) (self : NASA_Climate)
    (state : String) (_index : Nat) : NASA_Climate × List Effect :=
  let r := update_custom_preset set_custom_preset_ self state
  (r.2, publish_if r.1)

/-- Member `on_mode_select` (lines 94-103). -/
def on_mode_select (self : NASA_Climate) (mode : ClimateMode) : NASA_Climate × List Effect :=
  let self1 :=
    if mode ≠ CLIMATE_MODE_OFF then { self with last_active_mode_ := mode } else self
  let r := update_mode self1 mode
  (r.2, publish_if r.1)

/-- The loop of `on_action_sens` (lines 108-114) over the remaining entries of
the map: the reading is converted in each iteration, the first entry whose key
equals it is applied and ends the loop. -/
def on_action_sens_loop (undefined_int : F32 → Int) (self : NASA_Climate) (state : F32) :
    List (Int × ClimateAction) → NASA_Climate × List Effect
  | [] => (self, [])
  | (key, value) :: rest =>
    if static_cast_int_on undefined_int state = key then
      let r := update_action self value
      (r.2, publish_if r.1)
    else on_action_sens_loop undefined_int self state rest

/-- Member `on_action_sens` (lines 105-115). -/
def on_action_sens (undefined_int : F32 → Int) (self : NASA_Climate) (state : F32) :
    NASA_Climate × List Effect :=
  match self.mappings_ with
  | none => (self, [])
  | some map => on_action_sens_loop undefined_int self state map

/-- The chain of comparisons of the mode-select listener (lines 32-44).  The
option `value` is a `const char *` and each `value == "..."` compares it with
the address of a string literal; `none` is the early `return`. -/
def mode_select_new_mode (mem : Memory) (value : Nat) : Option ClimateMode :=
  if value = mem.lit_heat then some CLIMATE_MODE_HEAT
  else if value = mem.lit_cool then some CLIMATE_MODE_COOL
  else if value = mem.lit_dry then some CLIMATE_MODE_DRY
  else if value = mem.lit_fan then some CLIMATE_MODE_FAN_ONLY
  else if value = mem.lit_auto then some CLIMATE_MODE_AUTO
  else none

/-- The body of the mode-select listener once the option `value` has been read
(lines 32-52). -/
def mode_select_value (mem : Memory) (self : NASA_Climate) (value : Nat) :
    NASA_Climate × List Effect :=
  match mode_select_new_mode mem value with
  | none => (self, [])
  | some new_mode =>
    if self.mode = CLIMATE_MODE_OFF then ({ self with last_active_mode_ := new_mode }, [])
    else on_mode_select self new_mode

/-- The mode-select listener registered by `setup` (lines 30-53), for a select
with the given options; `none` when the index is outside the option list. -/
def mode_select_callback (mem : Memory) (options : List Nat) (self : NASA_Climate)
    (index : Nat) : Option (NASA_Climate × List Effect) :=
  match options[index]? with
  | none => none
  | some value => some (mode_select_value mem self value)

/-- The preset-select listener registered by `setup` (lines 24-27). -/
def select_presets_callback (set_custom_preset_ : PresetSetter) (options : List String)
    (self : NASA_Climate) (index : Nat) : Option (NASA_Climate × List Effect) :=
  match options[index]? with
  | none => none
  | some state => some (on_preset_select set_custom_preset_ self state index)

/-- The option set on the mode-select call in `control` (lines 131-140); the
chain has no final `else`. -/
def mode_select_option (new_mode : ClimateMode) : Option String :=
  if new_mode = CLIMATE_MODE_HEAT then some "Heat"
  else if new_mode = CLIMATE_MODE_COOL then some "Cool"
  else if new_mode = CLIMATE_MODE_DRY then some "Dry"
  else if new_mode = CLIMATE_MODE_FAN_ONLY then some "Fan"
  else if new_mode = CLIMATE_MODE_AUTO then some "Auto"
  else none

/-- First block of `control` (lines 119-146): the new object, the commands
issued, and whether the block set `update`. -/
def control_mode (self : NASA_Climate) (call : ClimateCall) :
    NASA_Climate × List Effect × Bool :=
  match call.mode with
  | none => (self, [], false)
  | some new_mode =>
    let r := update_mode self new_mode
    if r.2.power_ = true ∧ r.1 = true then
      if r.2.mode = CLIMATE_MODE_OFF then (r.2, [power_turn_off], true)
      else
        match r.2.mode_select_ with
        | none => (r.2, [power_turn_on], true)
        | some _ => (r.2, [power_turn_on, mode_select_perform (mode_select_option new_mode)], true)
    else (r.2, [], false)

/-- Second block of `control` (lines 147-155). -/
def control_target_temp (self : NASA_Climate) (call : ClimateCall) :
    NASA_Climate × List Effect × Bool :=
  match call.target_temperature with
  | none => (self, [], false)
  | some t =>
    let r := update_target_temp self t
    if r.2.target_temp_ = true ∧ r.1 = true then
      (r.2, [target_temp_set_value r.2.target_temperature], true)
    else (r.2, [], false)

/-- Third block of `control` (lines 156-165). -/
def control_custom_preset (set_custom_preset_ : PresetSetter) (self : NASA_Climate)
    (call : ClimateCall) : NASA_Climate × List Effect × Bool :=
  match call.custom_preset with
  | none => (self, [], false)
  | some p =>
    let r := update_custom_preset set_custom_preset_ self p
    if r.2.select_presets_.isSome = true ∧ r.1 = true then
      ({ r.2 with preset := none }, [select_presets_perform r.2.custom_preset], true)
    else (r.2, [], false)

/-- Member `control` (lines 117-168): the three blocks in order, then one
`publish_state()` if any block set `update`. -/
def control (set_custom_preset_ : PresetSetter) (self : NASA_Climate) (call : ClimateCall) :
    NASA_Climate × List Effect :=
  let a := control_mode self call
  let b := control_target_temp a.1 call
  let c := control_custom_preset set_custom_preset_ b.1 call
  (c.1, a.2.1 ++ b.2.1 ++ c.2.1 ++ publish_if (a.2.2 || b.2.2 || c.2.2))

/-- One event reaching the object: a state change reported by one of the six
entities, or a control request. -/
inductive Event
  | power (state : Bool)
  | target_temp (state : F32)
  | current_temp (state : F32)
  | action_sens (state : F32)
  | preset_select (index : Nat)
  | mode_select (index : Nat)
  | control (call : ClimateCall)
  deriving DecidableEq

/-- Delivery of one event through the listeners that `setup` registers (lines
10-55) or through `control`.  `none` when the event cannot be delivered: the
entity is not wired (no listener was registered) or the select index is
outside the option list. -/
def deliver (set_custom_preset_ : PresetSetter) (undefined_int : F32 → Int) (mem : Memory)
    (self : NASA_Climate) : Event → Option (NASA_Climate × List Effect)
  | .power state => if self.power_ = true then some (on_power self state) else none
  | .target_temp state =>
    if self.target_temp_ = true then some (on_target_temp self state) else none
  | .current_temp state =>
    if self.current_temp_ = true then some (on_current_temp self state) else none
  | .action_sens state =>
    if self.action_sens_ = true ∧ self.mappings_.isSome = true then
      some (on_action_sens undefined_int self state)
    else none
  | .preset_select index =>
    match self.select_presets_ with
    | none => none
    | some options => select_presets_callback set_custom_preset_ options self index
  | .mode_select index =>
    match self.mode_select_ with
    | none => none
    | some options => mode_select_callback mem options self index
  | .control call => some (control set_custom_preset_ self call)

/-- The number of `publish_state()` calls in an effect list. -/
def publishes (effects : List Effect) : Nat :=
  effects.count publish_state

/-- The object after a sequence of power signals handled by `on_power`, with
nothing else in between. -/
def on_power_seq (self : NASA_Climate) (signals : List Bool) : NASA_Climate :=
  signals.foldl (fun s state => (on_power s state).1) self

/-- The six fields the spec lists as the Unified Climate State. -/
def unified_state (self : NASA_Climate) :
    ClimateMode × ClimateAction × F32 × F32 × Option String × ClimateMode :=
  (self.mode, self.action, self.current_temperature, self.target_temperature,
    self.custom_preset, self.last_active_mode_)

/-- The fields of the Unified Climate State other than the private memory
`last_active_mode_`: the ones a publication shows. -/
def published_state (self : NASA_Climate) :
    ClimateMode × ClimateAction × F32 × F32 × Option String :=
  (self.mode, self.action, self.current_temperature, self.target_temperature,
    self.custom_preset)

/-- The temperature an event carries is a NaN (events without a temperature
carry none). -/
def Event.carries_nan : Event → Bool
  | .target_temp state => state.isnan
  | .current_temp state => state.isnan
  | .control call =>
    match call.target_temperature with
    | none => false
    | some t => t.isnan
  | _ => false

/-- Each part a control request carries has its outbound entity wired: the
power switch for a mode, the target-temperature number for a temperature, the
preset select for a custom preset.  Holds of every event that is not a control
request. -/
def Event.entities_wired (self : NASA_Climate) : Event → Bool
  | .control call =>
    (call.mode.isNone || self.power_)
      && (call.target_temperature.isNone || self.target_temp_)
      && (call.custom_preset.isNone || self.select_presets_.isSome)
  | _ => true

/-- The label table in the words of the spec: the mode a label text names, by
exact string match over the five labels.  The listener does not compute this
(it compares addresses, see `mode_select_new_mode`); it says which mode a
mode-select signal chooses. -/
def spec_label_mode (label : String) : Option ClimateMode :=
  if label = "Heat" then some CLIMATE_MODE_HEAT
  else if label = "Cool" then some CLIMATE_MODE_COOL
  else if label = "Dry" then some CLIMATE_MODE_DRY
  else if label = "Fan" then some CLIMATE_MODE_FAN_ONLY
  else if label = "Auto" then some CLIMATE_MODE_AUTO
  else none

/-- The mode a mode-select event chooses: the mode the text of its option
names, if the select is wired, the index is in range and the text is one of
the five labels. -/
def Event.chosen_mode (mem : Memory) (self : NASA_Climate) : Event → Option ClimateMode
  | .mode_select index =>
    match self.mode_select_ with
    | none => none
    | some options =>
      match options[index]? with
      | none => none
      | some value => spec_label_mode (mem.text_at value)
  | _ => none

/-- The option of a mode-select event is resolved by the listener to the mode
its text names: an option whose text is one of the five labels is stored at
the address of the literal of the listener for that label.  Holds of every other
event. -/
def Event.label_at_literal (mem : Memory) (self : NASA_Climate) : Event → Bool
  | .mode_select index =>
    match self.mode_select_ with
    | none => true
    | some options =>
      match options[index]? with
      | none => true
      | some value => decide (mode_select_new_mode mem value = spec_label_mode (mem.text_at value))
  | _ => true

/-- The most recent non-Off mode before any event: the live mode if it is not
Off, otherwise none yet. -/
def initial_recent (self : NASA_Climate) : Option ClimateMode :=
  if self.mode ≠ CLIMATE_MODE_OFF then some self.mode else none

/-- The most recent non-Off mode after one event: the live mode after the
event if it is not Off, otherwise the mode the event chose through the mode
select, otherwise what it was. -/
def track_recent (mem : Memory) (recent : Option ClimateMode) (before : NASA_Climate)
    (e : Event) (after : NASA_Climate) : Option ClimateMode :=
  if after.mode ≠ CLIMATE_MODE_OFF then some after.mode
  else
    match e.chosen_mode mem before with
    | some m => some m
    | none => recent

/-- The event is a control request for mode Off arriving while the unit is on
in a mode other than the remembered one. -/
def Event.off_request_unremembered (self : NASA_Climate) : Event → Bool
  | .control call =>
    decide (call.mode = some CLIMATE_MODE_OFF) && decide (self.mode ≠ CLIMATE_MODE_OFF)
      && decide (self.last_active_mode_ ≠ self.mode)
  | _ => false

/-- Whether, after one event, the unit is off since a control request for Off
that arrived while the live mode differed from `last_active_mode_`, with no
mode chosen through the mode select since: the flag is raised by such a
request, cleared when the unit is on after the event or the event chose a
mode, and otherwise kept. -/
def track_stale (mem : Memory) (stale : Bool) (before : NASA_Climate) (e : Event)
    (after : NASA_Climate) : Bool :=
  if after.mode ≠ CLIMATE_MODE_OFF then false
  else if (e.chosen_mode mem before).isSome = true then false
  else if e.off_request_unremembered before = true then true
  else stale

/-- Delivery of a sequence of events, carrying along the most recent non-Off
mode and the flag of `track_stale`; `none` if some event cannot be
delivered. -/
def run (set_custom_preset_ : PresetSetter) (undefined_int : F32 → Int) (mem : Memory) :
    NASA_Climate × Option ClimateMode × Bool → List Event →
      Option (NASA_Climate × Option ClimateMode × Bool)
  | sg, [] => some sg
  | (self, recent, stale), e :: es =>
    match deliver set_custom_preset_ undefined_int mem self e with
    | none => none
    | some r =>
      run set_custom_preset_ undefined_int mem
        (r.1, track_recent mem recent self e r.1, track_stale mem stale self e r.1) es

/-- Every mode-select event of the sequence, delivered from `self` on, has its
option resolved by the listener to the mode its text names. -/
def labels_at_literals (set_custom_preset_ : PresetSetter) (undefined_int : F32 → Int)
    (mem : Memory) : NASA_Climate → List Event → Bool
  | _, [] => true
  | self, e :: es =>
    e.label_at_literal mem self &&
      (match deliver set_custom_preset_ undefined_int mem self e with
       | none => true
       | some r => labels_at_literals set_custom_preset_ undefined_int mem r.1 es)

/-- The value 21.0 (bits 0x41A80000). -/
def f32_21 : F32 := ⟨false, 131, 2621440⟩

/-- The value 2.0 (bits 0x40000000). -/
def f32_2 : F32 := ⟨false, 128, 0⟩

/-- The value 99.0 (bits 0x42C60000). -/
def f32_99 : F32 := ⟨false, 133, 4587520⟩

/-- The quiet NaN with bits 0x7FC00000, the value of the C macro NAN. -/
def f32_nan : F32 := ⟨false, 255, 4194304⟩

/-- The value 2147483648.0 (bits 0x4F000000), the least float above every
`int`. -/
def f32_2p31 : F32 := ⟨false, 158, 0⟩

/-- A memory in which the five literals of the listener are stored at the
addresses 1 to 5, copies of the same five texts at the addresses 11 to 15, and
the text "heat" at the address 21. -/
def example_memory : Memory where
  text_at := fun a =>
    if a = 1 ∨ a = 11 then "Heat"
    else if a = 2 ∨ a = 12 then "Cool"
    else if a = 3 ∨ a = 13 then "Dry"
    else if a = 4 ∨ a = 14 then "Fan"
    else if a = 5 ∨ a = 15 then "Auto"
    else if a = 21 then "heat"
    else ""
  lit_heat := 1
  lit_cool := 2
  lit_dry := 3
  lit_fan := 4
  lit_auto := 5
  heat_text := by decide
  cool_text := by decide
  dry_text := by decide
  fan_text := by decide
  auto_text := by decide

/-- The mapping table of the spec example. -/
def example_map : List (Int × ClimateAction) :=
  [(1, CLIMATE_ACTION_IDLE), (2, CLIMATE_ACTION_HEATING), (3, CLIMATE_ACTION_COOLING)]

/-- A fully wired unit that is switched off and remembers Heat: no
temperatures known yet, a mode select whose five options share their storage
with the literals of the listener in `example_memory`, a preset select with
two options and the mapping table of the spec example. -/
def example_unit : NASA_Climate where
  mode := CLIMATE_MODE_OFF
  action := CLIMATE_ACTION_OFF
  current_temperature := f32_nan
  target_temperature := f32_nan
  custom_preset := none
  preset := none
  last_active_mode_ := CLIMATE_MODE_HEAT
  power_ := true
  target_temp_ := true
  current_temp_ := true
  action_sens_ := true
  mappings_ := some example_map
  select_presets_ := some ["Eco", "Comfort"]
  mode_select_ := some [1, 2, 3, 4, 5]
  supported_modes_ := []

/-- The same unit with a mode select whose five options have the texts of the
five labels in storage of their own (addresses 11 to 15 of `example_memory`),
not shared with the literals of the listener. -/
def example_unit_copied : NASA_Climate :=
  { example_unit with mode_select_ := some [11, 12, 13, 14, 15] }

/-- The memory invariant relating the object to the most recent non-Off mode
and the flag of `track_stale`: while the unit is on, that mode is the live
mode and the flag is down; while it is off with the flag down, either no
non-Off mode was set yet or that mode is what `last_active_mode_` holds; while
it is off with the flag up, a non-Off mode was set and `last_active_mode_`
holds another one. -/
def memory_tracked (self : NASA_Climate) (recent : Option ClimateMode) (stale : Bool) : Prop :=
  (self.mode ≠ CLIMATE_MODE_OFF → recent = some self.mode ∧ stale = false) ∧
    (self.mode = CLIMATE_MODE_OFF → stale = false →
      recent = none ∨ recent = some self.last_active_mode_) ∧
    (self.mode = CLIMATE_MODE_OFF → stale = true →
      ∃ m, recent = some m ∧ self.last_active_mode_ ≠ m)

/-- Modelled from the spec: the feature flags of the framework header (not
under src/) that traits sets: support for current-temperature reporting and
for action reporting. -/
inductive ClimateFeature
  | CLIMATE_SUPPORTS_CURRENT_TEMPERATURE
  | CLIMATE_SUPPORTS_ACTION
  deriving DecidableEq

/-- Modelled from the spec: the Capability Descriptor of section 4.4, the
framework class ClimateTraits (not under src/): the declared features, the set
of supported modes, the set of supported built-in presets and the list of
supported custom preset labels. -/
structure ClimateTraits where
  feature_flags : Finset ClimateFeature
  supported_modes : Finset ClimateMode
  supported_presets : Finset ClimatePreset
  supported_custom_presets : List String
  deriving DecidableEq

/-- Modelled from the spec: a freshly constructed descriptor (the framework
default constructor, not under src/) declares nothing. -/
def ClimateTraits.empty : ClimateTraits where
  feature_flags := ∅
  supported_modes := ∅
  supported_presets := ∅
  supported_custom_presets := []

/-- Modelled from the spec: the framework method add_feature_flags (not under
src/) adds one feature to the declared ones. -/
def ClimateTraits.add_feature_flags (t : ClimateTraits) (flag : ClimateFeature) :
    ClimateTraits :=
  { t with feature_flags := insert flag t.feature_flags }

/-- Modelled from the spec: the framework method set_supported_modes (not
under src/) replaces the set of supported modes by the listed ones. -/
def ClimateTraits.set_supported_modes (t : ClimateTraits) (modes : List ClimateMode) :
    ClimateTraits :=
  { t with supported_modes := modes.toFinset }

/-- Modelled from the spec: the framework method add_supported_mode (not under
src/) adds one mode to the set of supported modes. -/
def ClimateTraits.add_supported_mode (t : ClimateTraits) (mode : ClimateMode) :
    ClimateTraits :=
  { t with supported_modes := insert mode t.supported_modes }

/-- Modelled from the spec: the framework method set_supported_presets (not
under src/) replaces the set of supported built-in presets. -/
def ClimateTraits.set_supported_presets (t : ClimateTraits) (presets : List ClimatePreset) :
    ClimateTraits :=
  { t with supported_presets := presets.toFinset }

/-- Modelled from the spec: the framework method set_supported_custom_presets
(not under src/) replaces the list of supported custom preset labels. -/
def ClimateTraits.set_supported_custom_presets (t : ClimateTraits) (presets : List String) :
    ClimateTraits :=
  { t with supported_custom_presets := presets }

/-- The loop of traits over the configured modes (lines 214-216). -/
def traits_add_modes (t : ClimateTraits) : List ClimateMode → ClimateTraits
  | [] => t
  | mode :: rest => traits_add_modes (t.add_supported_mode mode) rest

/-- Member `traits` (lines 204-226). -/
def traits (self : NASA_Climate) : ClimateTraits :=
  let t0 := ClimateTraits.empty
  let t1 := t0.add_feature_flags ClimateFeature.CLIMATE_SUPPORTS_CURRENT_TEMPERATURE
  let t2 := t1.add_feature_flags ClimateFeature.CLIMATE_SUPPORTS_ACTION
  let t3 :=
    if self.supported_modes_.isEmpty then
      t2.set_supported_modes [CLIMATE_MODE_OFF, CLIMATE_MODE_HEAT]
    else traits_add_modes (t2.add_supported_mode CLIMATE_MODE_OFF) self.supported_modes_
  let t4 := t3.set_supported_presets []
  match self.select_presets_ with
  | none => t4
  | some options => t4.set_supported_custom_presets options

/-! ## Theorems -/

section gatekeepers

/-- The flag update_mode returns: whether the candidate differs from the live
mode. -/
theorem update_mode_fst (self : NASA_Climate) (m : ClimateMode) :
    (update_mode self m).1 = decide (self.mode ≠ m) := by
  unfold update_mode; split <;> simp_all

/-- After update_mode the live mode is the candidate and nothing else changed. -/
theorem update_mode_snd (self : NASA_Climate) (m : ClimateMode) :
    (update_mode self m).2 = { self with mode := m } := by
  unfold update_mode; split
  · rfl
  · rename_i h; simp only [ne_eq, Decidable.not_not] at h; subst h; rfl

/-- The flag update_target_temp returns: the C++ comparison of the stored and
the candidate temperature. -/
theorem update_target_temp_fst (self : NASA_Climate) (t : F32) :
    (update_target_temp self t).1 = F32.ne self.target_temperature t := by
  unfold update_target_temp; split <;> simp_all

/-- The object after update_target_temp. -/
theorem update_target_temp_snd (self : NASA_Climate) (t : F32) :
    (update_target_temp self t).2 =
      if F32.ne self.target_temperature t = true then { self with target_temperature := t }
      else self := by
  unfold update_target_temp; split <;> rfl

/-- The flag update_current_temp returns. -/
theorem update_current_temp_fst (self : NASA_Climate) (t : F32) :
    (update_current_temp self t).1 = F32.ne self.current_temperature t := by
  unfold update_current_temp; split <;> simp_all

/-- The object after update_current_temp. -/
theorem update_current_temp_snd (self : NASA_Climate) (t : F32) :
    (update_current_temp self t).2 =
      if F32.ne self.current_temperature t = true then { self with current_temperature := t }
      else self := by
  unfold update_current_temp; split <;> rfl

/-- A value that is not a NaN compares unequal only to values with other bits. -/
theorem F32.ne_bits (a t : F32) (hnum : t.isnan = false) (hne : F32.ne a t = true) : a ≠ t := by
  intro h
  subst h
  simp [F32.ne, hnum] at hne

/-- A value that is not a NaN does not compare unequal to itself. -/
theorem F32.ne_self (t : F32) (hnum : t.isnan = false) : F32.ne t t = false := by
  simp [F32.ne, hnum]

/-- The set_custom_preset_ of the spec reports a change exactly when it
changes the custom preset. -/
theorem set_custom_preset_spec_reports_change (c : Option String) (p : Option ClimatePreset)
    (v : String) :
    (set_custom_preset_spec c p v).1 = true ↔ (set_custom_preset_spec c p v).2.1 ≠ c := by
  unfold set_custom_preset_spec
  by_cases h : c = some v
  · simp [h]
  · simp [h, Ne.symm h]

/-- The integer part computed by trunc_magnitude is the floor of the magnitude:
scaled by 2^150 it is at most the scaled magnitude, which is below the next
integer scaled by 2^150. -/
theorem F32.trunc_magnitude_floor (x : F32) :
    x.trunc_magnitude * 2 ^ 150 ≤ x.scaled_magnitude ∧
      x.scaled_magnitude < (x.trunc_magnitude + 1) * 2 ^ 150 := by
  unfold F32.trunc_magnitude F32.scaled_magnitude
  have hm : x.mantissa.val < 8388608 := x.mantissa.isLt
  by_cases h0 : x.exponent.val = 0
  · simp only [h0, if_true, zero_mul, zero_add, one_mul, Nat.zero_le, true_and]
    calc x.mantissa.val * 2 < 8388608 * 2 := by omega
      _ ≤ 2 ^ 150 := by norm_num
  · simp only [h0, if_false]
    by_cases hbig : 150 ≤ x.exponent.val
    · simp only [hbig, if_true]
      have hpow : (2 : Nat) ^ x.exponent.val = 2 ^ (x.exponent.val - 150) * 2 ^ 150 := by
        rw [← pow_add, Nat.sub_add_cancel hbig]
      rw [hpow, ← Nat.mul_assoc]
      constructor
      · exact Nat.le_refl _
      · exact Nat.mul_lt_mul_of_pos_right (Nat.lt_succ_self _) (by positivity)
    · simp only [hbig, if_false]
      have hk : 150 - x.exponent.val + x.exponent.val = 150 := by omega
      have hpow : (2 : Nat) ^ 150 = 2 ^ (150 - x.exponent.val) * 2 ^ x.exponent.val := by
        rw [← pow_add, hk]
      have hpos : 0 < (2 : Nat) ^ x.exponent.val := by positivity
      have hkpos : 0 < (2 : Nat) ^ (150 - x.exponent.val) := by positivity
      rw [hpow, ← Nat.mul_assoc, ← Nat.mul_assoc]
      constructor
      · exact Nat.mul_le_mul_right _ (Nat.div_mul_le_self _ _)
      · refine Nat.mul_lt_mul_of_pos_right ?_ hpos
        rw [Nat.succ_mul]
        exact Nat.lt_div_mul_add hkpos

/-- The conversion static_cast_int truncates toward zero: the absolute value
of its result is the floor of the magnitude and its sign is that of the
value. -/
theorem static_cast_int_truncates (x : F32) (code : Int)
    (hcast : static_cast_int x = some code) :
    code.natAbs * 2 ^ 150 ≤ x.scaled_magnitude ∧
      x.scaled_magnitude < (code.natAbs + 1) * 2 ^ 150 ∧
      (code < 0 → x.sign = true) ∧ (0 < code → x.sign = false) := by
  have hfloor := F32.trunc_magnitude_floor x
  unfold static_cast_int at hcast
  split at hcast
  · exact absurd hcast (by simp)
  · split at hcast
    · rename_i hs
      split at hcast
      · simp only [Option.some.injEq] at hcast
        subst hcast
        simp only [Int.natAbs_neg, Int.natAbs_ofNat]
        refine ⟨hfloor.1, hfloor.2, fun _ => hs, fun h => ?_⟩
        omega
      · exact absurd hcast (by simp)
    · rename_i hs
      split at hcast
      · simp only [Option.some.injEq] at hcast
        subst hcast
        simp only [Int.natAbs_ofNat]
        refine ⟨hfloor.1, hfloor.2, fun h => ?_, fun _ => by simpa using hs⟩
        omega
      · exact absurd hcast (by simp)

end gatekeepers

section control_blocks

/-- The object after the mode block of control. -/
theorem control_mode_fst (self : NASA_Climate) (call : ClimateCall) :
    (control_mode self call).1 =
      match call.mode with
      | none => self
      | some m => { self with mode := m } := by
  unfold control_mode
  cases call.mode with
  | none => rfl
  | some m =>
    simp only [update_mode_snd]
    split
    · split
      · rfl
      · split <;> rfl
    · rfl

/-- Whether the mode block of control sets the update flag. -/
theorem control_mode_flag (self : NASA_Climate) (call : ClimateCall) :
    (control_mode self call).2.2 =
      match call.mode with
      | none => false
      | some m => self.power_ && decide (self.mode ≠ m) := by
  unfold control_mode
  cases call.mode with
  | none => rfl
  | some m =>
    simp only [update_mode_snd, update_mode_fst]
    split
    · rename_i h
      have h1 : self.power_ = true := h.1
      have h2 := h.2
      split
      · simp [h1, h2]
      · split <;> simp [h1, h2]
    · rename_i h
      cases hp : self.power_ <;> simp_all

/-- The mode block of control never publishes by itself. -/
theorem control_mode_no_publish (self : NASA_Climate) (call : ClimateCall) :
    publishes (control_mode self call).2.1 = 0 := by
  unfold control_mode
  cases call.mode with
  | none => rfl
  | some m =>
    simp only
    split
    · split
      · rfl
      · split <;> rfl
    · rfl

/-- The object after the target-temperature block of control. -/
theorem control_target_temp_fst (self : NASA_Climate) (call : ClimateCall) :
    (control_target_temp self call).1 =
      match call.target_temperature with
      | none => self
      | some t => (update_target_temp self t).2 := by
  unfold control_target_temp
  cases call.target_temperature with
  | none => rfl
  | some t => simp only; split <;> rfl

/-- Whether the target-temperature block of control sets the update flag. -/
theorem control_target_temp_flag (self : NASA_Climate) (call : ClimateCall) :
    (control_target_temp self call).2.2 =
      match call.target_temperature with
      | none => false
      | some t => self.target_temp_ && F32.ne self.target_temperature t := by
  unfold control_target_temp
  cases call.target_temperature with
  | none => rfl
  | some t =>
    have hw : (update_target_temp self t).2.target_temp_ = self.target_temp_ := by
      rw [update_target_temp_snd]; split <;> rfl
    simp only [update_target_temp_fst, hw]
    split
    · rename_i h; simp [h.1, h.2]
    · rename_i h
      cases hp : self.target_temp_ <;> simp_all

/-- The target-temperature block of control never publishes by itself. -/
theorem control_target_temp_no_publish (self : NASA_Climate) (call : ClimateCall) :
    publishes (control_target_temp self call).2.1 = 0 := by
  unfold control_target_temp
  cases call.target_temperature with
  | none => rfl
  | some t => simp only; split <;> rfl

/-- The object after the custom-preset block of control: the setter decides
the custom preset, and the built-in preset is cleared when the select is wired
and the setter reported a change. -/
theorem control_custom_preset_fst (set_custom_preset_ : PresetSetter) (self : NASA_Climate)
    (call : ClimateCall) :
    (control_custom_preset set_custom_preset_ self call).1 =
      match call.custom_preset with
      | none => self
      | some p =>
        { self with
          custom_preset := (set_custom_preset_ self.custom_preset self.preset p).2.1
          preset :=
            if self.select_presets_.isSome = true ∧
                (set_custom_preset_ self.custom_preset self.preset p).1 = true then none
            else (set_custom_preset_ self.custom_preset self.preset p).2.2 } := by
  unfold control_custom_preset
  cases call.custom_preset with
  | none => rfl
  | some p =>
    simp only [update_custom_preset]
    split <;> rfl

/-- Whether the custom-preset block of control sets the update flag. -/
theorem control_custom_preset_flag (set_custom_preset_ : PresetSetter) (self : NASA_Climate)
    (call : ClimateCall) :
    (control_custom_preset set_custom_preset_ self call).2.2 =
      match call.custom_preset with
      | none => false
      | some p =>
        self.select_presets_.isSome && (set_custom_preset_ self.custom_preset self.preset p).1 := by
  unfold control_custom_preset
  cases call.custom_preset with
  | none => rfl
  | some p =>
    simp only [update_custom_preset]
    split
    · rename_i h; simp [h.1, h.2]
    · rename_i h
      cases hp : self.select_presets_.isSome <;> simp_all

/-- The custom-preset block of control never publishes by itself. -/
theorem control_custom_preset_no_publish (set_custom_preset_ : PresetSetter)
    (self : NASA_Climate) (call : ClimateCall) :
    publishes (control_custom_preset set_custom_preset_ self call).2.1 = 0 := by
  unfold control_custom_preset
  cases call.custom_preset with
  | none => rfl
  | some p => simp only; split <;> rfl

/-- A control request publishes once if some block set the update flag and not
at all otherwise. -/
theorem control_publishes (set_custom_preset_ : PresetSetter) (self : NASA_Climate)
    (call : ClimateCall) :
    publishes (control set_custom_preset_ self call).2 =
      if ((control_mode self call).2.2 ||
          (control_target_temp (control_mode self call).1 call).2.2 ||
          (control_custom_preset set_custom_preset_
            (control_target_temp (control_mode self call).1 call).1 call).2.2) = true
      then 1 else 0 := by
  have h1 := control_mode_no_publish self call
  have h2 := control_target_temp_no_publish (control_mode self call).1 call
  have h3 := control_custom_preset_no_publish set_custom_preset_
    (control_target_temp (control_mode self call).1 call).1 call
  unfold publishes at h1 h2 h3 ⊢
  simp only [control, List.count_append, h1, h2, h3, publish_if]
  split <;> simp

/-- A control request leaves last_active_mode_ as it was. -/
theorem control_last_active_mode_frame (set_custom_preset_ : PresetSetter)
    (self : NASA_Climate) (call : ClimateCall) :
    (control set_custom_preset_ self call).1.last_active_mode_ = self.last_active_mode_ := by
  have h1 : (control_mode self call).1.last_active_mode_ = self.last_active_mode_ := by
    rw [control_mode_fst]; split <;> rfl
  have h2 : ∀ s : NASA_Climate,
      (control_target_temp s call).1.last_active_mode_ = s.last_active_mode_ := by
    intro s
    rw [control_target_temp_fst]
    split
    · rfl
    · rw [update_target_temp_snd]; split <;> rfl
  have h3 : ∀ s : NASA_Climate,
      (control_custom_preset set_custom_preset_ s call).1.last_active_mode_
        = s.last_active_mode_ := by
    intro s
    rw [control_custom_preset_fst]; split <;> rfl
  simp only [control, h3, h2, h1]

end control_blocks

section power_memory

/-- After a power signal, a unit that is in mode `m` or is off remembering `m`
is again in one of these two situations, and its live mode is `m` after an on
signal and Off after an off signal. -/
theorem on_power_keeps_memory (m : ClimateMode) (hm : m ≠ CLIMATE_MODE_OFF)
    (self : NASA_Climate) (state : Bool)
    (h : self.mode = m ∨ (self.mode = CLIMATE_MODE_OFF ∧ self.last_active_mode_ = m)) :
    ((on_power self state).1.mode = m ∨
      ((on_power self state).1.mode = CLIMATE_MODE_OFF ∧
        (on_power self state).1.last_active_mode_ = m)) ∧
    (on_power self state).1.mode = (if state = true then m else CLIMATE_MODE_OFF) := by
  rcases h with h | ⟨h1, h2⟩
  · subst h
    cases state <;> simp [on_power, update_mode, hm]
  · cases state <;> simp [on_power, update_mode, h1, h2, hm, Ne.symm hm]

/-- The situation of `on_power_keeps_memory` is kept by any sequence of power
signals. -/
theorem on_power_seq_keeps_memory (m : ClimateMode) (hm : m ≠ CLIMATE_MODE_OFF)
    (signals : List Bool) (self : NASA_Climate)
    (h : self.mode = m ∨ (self.mode = CLIMATE_MODE_OFF ∧ self.last_active_mode_ = m)) :
    (on_power_seq self signals).mode = m ∨
      ((on_power_seq self signals).mode = CLIMATE_MODE_OFF ∧
        (on_power_seq self signals).last_active_mode_ = m) := by
  induction signals generalizing self with
  | nil => simpa [on_power_seq] using h
  | cons b rest ih =>
    have hstep := (on_power_keeps_memory m hm self b h).1
    simpa [on_power_seq] using ih (on_power self b).1 hstep

/-- C1: starting in a mode m other than Off (whatever last_active_mode_
holds), after any non-empty sequence of power signals handled by on_power the
live mode is m if the last signal was on and Off if it was off; in particular
off followed by on restores exactly m. -/
theorem C1_power_sequence_restores_mode (self : NASA_Climate) (signals : List Bool)
    (hmode : self.mode ≠ CLIMATE_MODE_OFF) (hne : signals ≠ []) :
    (on_power_seq self signals).mode =
        (if signals.getLast hne = true then self.mode else CLIMATE_MODE_OFF) ∧
      (on_power (on_power self false).1 true).1.mode = self.mode := by
  constructor
  · obtain ⟨front, last, rfl⟩ : ∃ front last, signals = front ++ [last] :=
      ⟨signals.dropLast, signals.getLast hne, (List.dropLast_append_getLast hne).symm⟩
    have hinv := on_power_seq_keeps_memory self.mode hmode front self (Or.inl rfl)
    have hstep := (on_power_keeps_memory self.mode hmode (on_power_seq self front) last hinv).2
    simpa [on_power_seq, List.foldl_append] using hstep
  · have h1 := on_power_keeps_memory self.mode hmode self false (Or.inl rfl)
    have h2 := (on_power_keeps_memory self.mode hmode (on_power self false).1 true h1.1).2
    simpa using h2

/-- C1 at a concrete unit: Cool, then off, on, off, on. -/
theorem C1_power_sequence_restores_mode_witness :
    ({ example_unit with mode := CLIMATE_MODE_COOL } : NASA_Climate).mode ≠ CLIMATE_MODE_OFF ∧
      ((on_power_seq { example_unit with mode := CLIMATE_MODE_COOL }
          [false, true, false, true]).mode =
        (if [false, true, false, true].getLast (by decide) = true
          then ({ example_unit with mode := CLIMATE_MODE_COOL } : NASA_Climate).mode
          else CLIMATE_MODE_OFF) ∧
      (on_power (on_power { example_unit with mode := CLIMATE_MODE_COOL } false).1 true).1.mode =
        ({ example_unit with mode := CLIMATE_MODE_COOL } : NASA_Climate).mode) :=
  ⟨by decide, C1_power_sequence_restores_mode { example_unit with mode := CLIMATE_MODE_COOL }
    [false, true, false, true] (by decide) (by decide)⟩

end power_memory

section mode_select

/-- An option the listener resolves is stored at the address of one of its
literals, so its text is the label of the resolved mode, and the mode is not
Off. -/
theorem mode_select_new_mode_text (mem : Memory) (value : Nat) (m : ClimateMode)
    (h : mode_select_new_mode mem value = some m) :
    spec_label_mode (mem.text_at value) = some m ∧ m ≠ CLIMATE_MODE_OFF := by
  unfold mode_select_new_mode at h
  split at h
  · rename_i ha
    simp only [Option.some.injEq] at h
    subst h
    rw [ha, mem.heat_text]
    exact ⟨by decide, by decide⟩
  · split at h
    · rename_i ha
      simp only [Option.some.injEq] at h
      subst h
      rw [ha, mem.cool_text]
      exact ⟨by decide, by decide⟩
    · split at h
      · rename_i ha
        simp only [Option.some.injEq] at h
        subst h
        rw [ha, mem.dry_text]
        exact ⟨by decide, by decide⟩
      · split at h
        · rename_i ha
          simp only [Option.some.injEq] at h
          subst h
          rw [ha, mem.fan_text]
          exact ⟨by decide, by decide⟩
        · split at h
          · rename_i ha
            simp only [Option.some.injEq] at h
            subst h
            rw [ha, mem.auto_text]
            exact ⟨by decide, by decide⟩
          · exact absurd h (by simp)

/-- An option whose text is none of the five labels is not resolved by the
listener, wherever it is stored. -/
theorem mode_select_new_mode_unknown (mem : Memory) (value : Nat)
    (h : spec_label_mode (mem.text_at value) = none) : mode_select_new_mode mem value = none := by
  cases hres : mode_select_new_mode mem value with
  | none => rfl
  | some m =>
    rw [(mode_select_new_mode_text mem value m hres).1] at h
    exact absurd h (by simp)

/-- What the listener does with an option it resolves to m while the unit is
Off: only last_active_mode_ becomes m, nothing is published, and a following
on_power(true) sets the live mode to m and publishes. -/
theorem mode_select_callback_resolved_off (mem : Memory) (self : NASA_Climate)
    (options : List Nat) (index : Nat) (value : Nat) (m : ClimateMode)
    (hidx : options[index]? = some value)
    (hres : mode_select_new_mode mem value = some m)
    (hoff : self.mode = CLIMATE_MODE_OFF) :
    mode_select_callback mem options self index
        = some ({ self with last_active_mode_ := m }, []) ∧
      on_power { self with last_active_mode_ := m } true
        = ({ self with last_active_mode_ := m, mode := m }, [publish_state]) := by
  have hm := (mode_select_new_mode_text mem value m hres).2
  constructor
  · simp [mode_select_callback, hidx, mode_select_value, hres, hoff]
  · simp [on_power, update_mode, hoff, Ne.symm hm, publish_if]

/-- What the listener does with an option it resolves to m while the unit is
not Off: the live mode and last_active_mode_ both become m, and the state is
published exactly when m differs from the previous live mode. -/
theorem mode_select_callback_resolved_on (mem : Memory) (self : NASA_Climate)
    (options : List Nat) (index : Nat) (value : Nat) (m : ClimateMode)
    (hidx : options[index]? = some value)
    (hres : mode_select_new_mode mem value = some m)
    (hon : self.mode ≠ CLIMATE_MODE_OFF) :
    mode_select_callback mem options self index
        = some ({ self with mode := m, last_active_mode_ := m },
            if self.mode ≠ m then [publish_state] else []) := by
  have hm := (mode_select_new_mode_text mem value m hres).2
  by_cases hsame : self.mode = m
  · simp [mode_select_callback, hidx, mode_select_value, hres, hon, on_mode_select, update_mode,
      hm, hsame, publish_if]
  · simp [mode_select_callback, hidx, mode_select_value, hres, hon, on_mode_select, update_mode,
      hm, hsame, publish_if]

/-- C4, the code at a failing input: the unit is Off remembering Heat, and the
mode select reports its option 1, whose text is "Cool" and which is stored at
an address of its own (12), not at the address of the literal of the listener (2).
The comparison of line 35 compares the addresses, so the listener takes the
unknown-label return: last_active_mode_ stays Heat, and a following
on_power(true) restores Heat, not Cool.  Had the option shared the storage of
the literal, Cool would have been stored and restored. -/
theorem C4_option_in_other_storage_ignored_while_off :
    example_memory.text_at 12 = "Cool" ∧
      example_unit_copied.mode = CLIMATE_MODE_OFF ∧
      mode_select_callback example_memory [11, 12, 13, 14, 15] example_unit_copied 1
        = some (example_unit_copied, []) ∧
      example_unit_copied.last_active_mode_ = CLIMATE_MODE_HEAT ∧
      (on_power example_unit_copied true).1.mode = CLIMATE_MODE_HEAT ∧
      mode_select_callback example_memory [1, 2, 3, 4, 5] example_unit 1
        = some ({ example_unit with last_active_mode_ := CLIMATE_MODE_COOL }, []) ∧
      (on_power { example_unit with last_active_mode_ := CLIMATE_MODE_COOL } true).1.mode
        = CLIMATE_MODE_COOL := by
  refine ⟨by decide, by decide, by decide, by decide, by decide, by decide, by decide⟩

/-- C5, the code at a failing input: the unit is heating, and the mode select
reports its option 3, whose text is "Fan" and which is stored at an address of
its own (14), not at the address of the literal of the listener (4).  The
comparison of line 39 compares the addresses, so the listener takes the
unknown-label return: the live mode and last_active_mode_ stay Heat and
nothing is published.  Had the option shared the storage of the literal, both
would have become FanOnly, with one publish. -/
theorem C5_option_in_other_storage_ignored_while_on :
    example_memory.text_at 14 = "Fan" ∧
      mode_select_callback example_memory [11, 12, 13, 14, 15]
          { example_unit_copied with mode := CLIMATE_MODE_HEAT } 3
        = some ({ example_unit_copied with mode := CLIMATE_MODE_HEAT }, []) ∧
      mode_select_callback example_memory [1, 2, 3, 4, 5]
          { example_unit with mode := CLIMATE_MODE_HEAT } 3
        = some ({ example_unit with mode := CLIMATE_MODE_FAN_ONLY,
                                    last_active_mode_ := CLIMATE_MODE_FAN_ONLY },
            [publish_state]) := by
  refine ⟨by decide, by decide, by decide⟩

end mode_select

section action_code

/-- The loop of on_action_sens skips the entries whose key differs from the
converted reading. -/
theorem on_action_sens_loop_skip (undefined_int : F32 → Int) (self : NASA_Climate) (x : F32)
    (front tail : List (Int × ClimateAction))
    (hfront : ∀ e ∈ front, e.1 ≠ static_cast_int_on undefined_int x) :
    on_action_sens_loop undefined_int self x (front ++ tail)
      = on_action_sens_loop undefined_int self x tail := by
  induction front with
  | nil => rfl
  | cons e front ih =>
    obtain ⟨key, value⟩ := e
    have hkey : ¬ static_cast_int_on undefined_int x = key :=
      fun h => hfront (key, value) (List.mem_cons_self _ _) h.symm
    have hrest : ∀ e ∈ front, e.1 ≠ static_cast_int_on undefined_int x :=
      fun e he => hfront e (List.mem_cons_of_mem _ he)
    simp [on_action_sens_loop, hkey, ih hrest]

/-- The first entry of the table whose key equals the converted reading is
applied, on every reading and every platform: action becomes its value, with a
publish exactly when that differs from the previous action. -/
theorem on_action_sens_first_match (undefined_int : F32 → Int) (self : NASA_Climate)
    (map : List (Int × ClimateAction)) (x : F32) (hmap : self.mappings_ = some map)
    (front : List (Int × ClimateAction)) (value : ClimateAction)
    (rest : List (Int × ClimateAction))
    (hsplit : map = front ++ (static_cast_int_on undefined_int x, value) :: rest)
    (hfront : ∀ e ∈ front, e.1 ≠ static_cast_int_on undefined_int x) :
    on_action_sens undefined_int self x
      = ({ self with action := value }, if self.action ≠ value then [publish_state] else []) := by
  have hdef : on_action_sens undefined_int self x
      = on_action_sens_loop undefined_int self x map := by
    rw [on_action_sens, hmap]
  rw [hdef]
  subst hsplit
  rw [on_action_sens_loop_skip undefined_int self x front _ hfront]
  by_cases hsame : self.action = value
  · subst hsame
    simp [on_action_sens_loop, update_action, publish_if]
  · simp [on_action_sens_loop, update_action, hsame, publish_if]

/-- A table without an entry for the converted reading leaves the object
unchanged and publishes nothing, on every reading and every platform. -/
theorem on_action_sens_no_match (undefined_int : F32 → Int) (self : NASA_Climate)
    (map : List (Int × ClimateAction)) (x : F32) (hmap : self.mappings_ = some map)
    (hnone : ∀ e ∈ map, e.1 ≠ static_cast_int_on undefined_int x) :
    on_action_sens undefined_int self x = (self, []) := by
  have hdef : on_action_sens undefined_int self x
      = on_action_sens_loop undefined_int self x map := by
    rw [on_action_sens, hmap]
  rw [hdef]
  have h := on_action_sens_loop_skip undefined_int self x map [] hnone
  simpa [on_action_sens_loop] using h

/-- On every platform a table whose key is the integer the conversion yields
for a reading is applied at that reading, also where the conversion is
undefined in C++ and the reading has no integer part in the range of int. -/
theorem on_action_sens_applies_converted_key (undefined_int : F32 → Int)
    (self : NASA_Climate) (x : F32) (value : ClimateAction)
    (hmap : self.mappings_ = some [(static_cast_int_on undefined_int x, value)]) :
    on_action_sens undefined_int self x
      = ({ self with action := value }, if self.action ≠ value then [publish_state] else []) :=
  on_action_sens_first_match undefined_int self _ x hmap [] value [] rfl
    (fun _ he => absurd he (List.not_mem_nil _))

/-- C6, counterexample to the claim as stated: the reading 2147483648.0 has
the integer part 2147483648, which is no `int`, so its conversion is undefined
in C++ and the program compares whatever the conversion instruction yields.
With a table whose only key is 2147483647 (no entry has the key 2147483648) a
saturating platform sets action to Heating and publishes; so does, with the
only key -2147483648, a platform that yields the least int; and on a
saturating platform a NaN reading sets the action of key 0. -/
theorem C6_counterexample :
    static_cast_int f32_2p31 = none ∧
      f32_2p31.trunc_magnitude = 2147483648 ∧
      (∀ e ∈ [((2147483647 : Int), CLIMATE_ACTION_HEATING)], e.1 ≠ 2147483648) ∧
      on_action_sens undefined_int_saturating
          { example_unit with mappings_ := some [(2147483647, CLIMATE_ACTION_HEATING)] }
          f32_2p31
        = ({ example_unit with mappings_ := some [(2147483647, CLIMATE_ACTION_HEATING)],
                               action := CLIMATE_ACTION_HEATING }, [publish_state]) ∧
      on_action_sens undefined_int_indefinite
          { example_unit with mappings_ := some [(-2147483648, CLIMATE_ACTION_HEATING)] }
          f32_2p31
        = ({ example_unit with mappings_ := some [(-2147483648, CLIMATE_ACTION_HEATING)],
                               action := CLIMATE_ACTION_HEATING }, [publish_state]) ∧
      static_cast_int f32_nan = none ∧
      on_action_sens undefined_int_saturating
          { example_unit with mappings_ := some [(0, CLIMATE_ACTION_IDLE)] } f32_nan
        = ({ example_unit with mappings_ := some [(0, CLIMATE_ACTION_IDLE)],
                               action := CLIMATE_ACTION_IDLE }, [publish_state]) := by
  refine ⟨by decide, by decide, by decide, by decide, by decide, by decide, by decide⟩

/-- C6 (amended): for every state, every mapping table and every action-code
reading x whose conversion to int is defined in C++ (x is finite and its
integer part is in the range of int), on every platform: on_action_sens
converts x to an integer by truncation toward zero (the integer is the floor
of the magnitude of x, with the sign of x) and, if the table has an entry with
that key, sets action to the value of the first such entry and publishes
exactly when that value differs from the previous action; if no entry has that
key the whole state is unchanged and nothing is published.  With the table
[(1,Idle),(2,Heating),(3,Cooling)] the reading 2.0 sets action to Heating (so
does 2.75, which truncates to 2) and the reading 99.0 changes nothing. -/
theorem C6_action_code_lookup (undefined_int : F32 → Int) (self : NASA_Climate)
    (map : List (Int × ClimateAction)) (x : F32) (code : Int)
    (hmap : self.mappings_ = some map)
    (hcast : static_cast_int x = some code) :
    (static_cast_int_on undefined_int x = code ∧
        code.natAbs * 2 ^ 150 ≤ x.scaled_magnitude ∧
        x.scaled_magnitude < (code.natAbs + 1) * 2 ^ 150 ∧
        (code < 0 → x.sign = true) ∧ (0 < code → x.sign = false)) ∧
      (∀ front value rest, map = front ++ (code, value) :: rest → (∀ e ∈ front, e.1 ≠ code) →
        on_action_sens undefined_int self x
          = ({ self with action := value },
              if self.action ≠ value then [publish_state] else [])) ∧
      ((∀ e ∈ map, e.1 ≠ code) → on_action_sens undefined_int self x = (self, [])) ∧
      (static_cast_int f32_2 = some 2 ∧
        static_cast_int ⟨false, 128, 3145728⟩ = some 2 ∧
        static_cast_int ⟨true, 128, 3145728⟩ = some (-2) ∧
        static_cast_int f32_99 = some 99 ∧
        on_action_sens undefined_int example_unit f32_2
          = ({ example_unit with action := CLIMATE_ACTION_HEATING }, [publish_state]) ∧
        on_action_sens undefined_int example_unit ⟨false, 128, 3145728⟩
          = ({ example_unit with action := CLIMATE_ACTION_HEATING }, [publish_state]) ∧
        on_action_sens undefined_int example_unit f32_99 = (example_unit, [])) := by
  have hon : static_cast_int_on undefined_int x = code := by
    simp [static_cast_int_on, hcast]
  have htrunc := static_cast_int_truncates x code hcast
  refine ⟨⟨hon, htrunc⟩, ?_, ?_, by decide, by decide, by decide, by decide, ?_, ?_, ?_⟩
  · intro front value rest hsplit hfront
    rw [← hon] at hsplit hfront
    exact on_action_sens_first_match undefined_int self map x hmap front value rest hsplit hfront
  · intro hnone
    rw [← hon] at hnone
    exact on_action_sens_no_match undefined_int self map x hmap hnone
  · have h2 : static_cast_int_on undefined_int f32_2 = 2 := by
      simp only [static_cast_int_on, show static_cast_int f32_2 = some 2 by decide]
    exact on_action_sens_first_match undefined_int example_unit example_map f32_2 rfl
      [(1, CLIMATE_ACTION_IDLE)] CLIMATE_ACTION_HEATING [(3, CLIMATE_ACTION_COOLING)]
      (by rw [h2]; rfl) (by rw [h2]; decide)
  · have h2 : static_cast_int_on undefined_int ⟨false, 128, 3145728⟩ = 2 := by
      simp only [static_cast_int_on,
        show static_cast_int ⟨false, 128, 3145728⟩ = some 2 by decide]
    exact on_action_sens_first_match undefined_int example_unit example_map
      ⟨false, 128, 3145728⟩ rfl
      [(1, CLIMATE_ACTION_IDLE)] CLIMATE_ACTION_HEATING [(3, CLIMATE_ACTION_COOLING)]
      (by rw [h2]; rfl) (by rw [h2]; decide)
  · have h99 : static_cast_int_on undefined_int f32_99 = 99 := by
      simp only [static_cast_int_on, show static_cast_int f32_99 = some 99 by decide]
    exact on_action_sens_no_match undefined_int example_unit example_map f32_99 rfl
      (by rw [h99]; decide)

/-- C6 (amended) at a concrete unit: a table with a duplicated key 2 and the
reading 2.0; the first entry for 2 wins. -/
theorem C6_action_code_lookup_witness :
    ({ example_unit with
        mappings_ := some [(1, CLIMATE_ACTION_IDLE), (2, CLIMATE_ACTION_HEATING),
          (2, CLIMATE_ACTION_COOLING)] } : NASA_Climate).mappings_
        = some [(1, CLIMATE_ACTION_IDLE), (2, CLIMATE_ACTION_HEATING),
          (2, CLIMATE_ACTION_COOLING)] ∧
      static_cast_int f32_2 = some 2 ∧
      on_action_sens undefined_int_saturating { example_unit with
          mappings_ := some [(1, CLIMATE_ACTION_IDLE), (2, CLIMATE_ACTION_HEATING),
            (2, CLIMATE_ACTION_COOLING)] } f32_2
        = ({ example_unit with
            mappings_ := some [(1, CLIMATE_ACTION_IDLE), (2, CLIMATE_ACTION_HEATING),
              (2, CLIMATE_ACTION_COOLING)],
            action := CLIMATE_ACTION_HEATING }, [publish_state]) :=
  ⟨rfl, by decide,
    (C6_action_code_lookup undefined_int_saturating { example_unit with
        mappings_ := some [(1, CLIMATE_ACTION_IDLE), (2, CLIMATE_ACTION_HEATING),
          (2, CLIMATE_ACTION_COOLING)] }
      [(1, CLIMATE_ACTION_IDLE), (2, CLIMATE_ACTION_HEATING), (2, CLIMATE_ACTION_COOLING)]
      f32_2 2 rfl (by decide)).2.1 [(1, CLIMATE_ACTION_IDLE)] CLIMATE_ACTION_HEATING
      [(2, CLIMATE_ACTION_COOLING)] rfl (by decide)⟩

end action_code

section control_requests

/-- C7: for a requested mode m different from the live mode, with the power
entity wired, control with only that mode sets the live mode to m (nothing
else changes), publishes exactly once, and issues: for Off exactly a power
turn_off and no mode-select command; for any other mode a power turn_on and,
when a mode-select entity is wired, a mode-select call with the canonical
label of m (Heat, Cool, Dry, Fan for FanOnly, Auto); every mode other than Off
has such a label. -/
theorem C7_control_mode_change (set_custom_preset_ : PresetSetter) (self : NASA_Climate)
    (m : ClimateMode) (hne : self.mode ≠ m) (hpower : self.power_ = true) :
    (control set_custom_preset_ self ⟨some m, none, none⟩).1 = { self with mode := m } ∧
      publishes (control set_custom_preset_ self ⟨some m, none, none⟩).2 = 1 ∧
      (m = CLIMATE_MODE_OFF →
        (control set_custom_preset_ self ⟨some m, none, none⟩).2
          = [power_turn_off, publish_state]) ∧
      (m ≠ CLIMATE_MODE_OFF → self.mode_select_ = none →
        (control set_custom_preset_ self ⟨some m, none, none⟩).2
          = [power_turn_on, publish_state]) ∧
      (∀ label, (m, label) ∈ [(CLIMATE_MODE_HEAT, "Heat"), (CLIMATE_MODE_COOL, "Cool"),
          (CLIMATE_MODE_DRY, "Dry"), (CLIMATE_MODE_FAN_ONLY, "Fan"),
          (CLIMATE_MODE_AUTO, "Auto")] →
        self.mode_select_.isSome = true →
        (control set_custom_preset_ self ⟨some m, none, none⟩).2
          = [power_turn_on, mode_select_perform (some label), publish_state]) ∧
      (m ≠ CLIMATE_MODE_OFF →
        ∃ label, (m, label) ∈ [(CLIMATE_MODE_HEAT, "Heat"), (CLIMATE_MODE_COOL, "Cool"),
          (CLIMATE_MODE_DRY, "Dry"), (CLIMATE_MODE_FAN_ONLY, "Fan"),
          (CLIMATE_MODE_AUTO, "Auto")]) := by
  refine ⟨?_, ?_, ?_, ?_, ?_, ?_⟩
  · cases hsel : self.mode_select_ <;> cases m <;>
      simp [control, control_mode, control_target_temp, control_custom_preset, update_mode,
        hne, hpower, hsel]
  · cases hsel : self.mode_select_ <;> cases m <;>
      simp [control, control_mode, control_target_temp, control_custom_preset, update_mode,
        hne, hpower, hsel, publish_if, publishes]
  · intro hoff
    subst hoff
    simp [control, control_mode, control_target_temp, control_custom_preset, update_mode,
      hne, hpower, publish_if]
  · intro hon hsel
    simp [control, control_mode, control_target_temp, control_custom_preset, update_mode,
      hne, hpower, hsel, hon, publish_if]
  · intro label hlabel hsel
    obtain ⟨options, hopt⟩ := Option.isSome_iff_exists.mp hsel
    simp only [List.mem_cons, Prod.mk.injEq, List.mem_singleton, List.mem_nil_iff, or_false]
      at hlabel
    rcases hlabel with ⟨rfl, rfl⟩ | ⟨rfl, rfl⟩ | ⟨rfl, rfl⟩ | ⟨rfl, rfl⟩ | ⟨rfl, rfl⟩ <;>
      simp [control, control_mode, control_target_temp, control_custom_preset, update_mode,
        hne, hpower, hopt, publish_if, mode_select_option]
  · intro hon
    cases m <;> simp at hon ⊢

/-- C7 at a concrete unit: control with mode Heat on a fully wired unit that
is off remembering Cool powers on, sets the mode select to Heat, sets the live
mode to Heat and publishes once. -/
theorem C7_control_mode_change_witness :
    ({ example_unit with last_active_mode_ := CLIMATE_MODE_COOL } : NASA_Climate).mode
        ≠ CLIMATE_MODE_HEAT ∧
      (control set_custom_preset_spec { example_unit with last_active_mode_ := CLIMATE_MODE_COOL }
          ⟨some CLIMATE_MODE_HEAT, none, none⟩).1
        = { example_unit with last_active_mode_ := CLIMATE_MODE_COOL,
                              mode := CLIMATE_MODE_HEAT } ∧
      (control set_custom_preset_spec { example_unit with last_active_mode_ := CLIMATE_MODE_COOL }
          ⟨some CLIMATE_MODE_HEAT, none, none⟩).2
        = [power_turn_on, mode_select_perform (some "Heat"), publish_state] :=
  have h := C7_control_mode_change set_custom_preset_spec
    { example_unit with last_active_mode_ := CLIMATE_MODE_COOL } CLIMATE_MODE_HEAT
    (by decide) (by decide)
  ⟨by decide, h.1, h.2.2.2.2.1 "Heat" (by decide) (by decide)⟩

/-- C8: control never modifies last_active_mode_, whatever the request; and
for a unit that is not Off with the power entity wired, control with only mode
Off issues a power turn_off, sets the live mode to Off, changes nothing else
(last_active_mode_ included) and publishes exactly once. -/
theorem C8_control_keeps_last_active_mode (set_custom_preset_ : PresetSetter)
    (self : NASA_Climate) (call : ClimateCall) :
    (control set_custom_preset_ self call).1.last_active_mode_ = self.last_active_mode_ ∧
      (self.mode ≠ CLIMATE_MODE_OFF → self.power_ = true →
        control set_custom_preset_ self ⟨some CLIMATE_MODE_OFF, none, none⟩
            = ({ self with mode := CLIMATE_MODE_OFF }, [power_turn_off, publish_state]) ∧
          publishes (control set_custom_preset_ self ⟨some CLIMATE_MODE_OFF, none, none⟩).2
            = 1) := by
  constructor
  · exact control_last_active_mode_frame set_custom_preset_ self call
  · intro hon hpower
    simp [control, control_mode, control_target_temp, control_custom_preset, update_mode,
      hon, hpower, publish_if, publishes]

/-- C8 at a concrete unit: cooling while remembering Heat, then control with
mode Off. -/
theorem C8_control_keeps_last_active_mode_witness :
    ({ example_unit with mode := CLIMATE_MODE_COOL } : NASA_Climate).mode ≠ CLIMATE_MODE_OFF ∧
      ({ example_unit with mode := CLIMATE_MODE_COOL } : NASA_Climate).power_ = true ∧
      control set_custom_preset_spec { example_unit with mode := CLIMATE_MODE_COOL }
          ⟨some CLIMATE_MODE_OFF, none, none⟩
        = ({ example_unit with mode := CLIMATE_MODE_OFF }, [power_turn_off, publish_state]) ∧
      (control set_custom_preset_spec { example_unit with mode := CLIMATE_MODE_COOL }
          ⟨some CLIMATE_MODE_OFF, none, none⟩).1.last_active_mode_ = CLIMATE_MODE_HEAT :=
  have h := C8_control_keeps_last_active_mode set_custom_preset_spec
    { example_unit with mode := CLIMATE_MODE_COOL } ⟨some CLIMATE_MODE_OFF, none, none⟩
  ⟨by decide, by decide, (h.2 (by decide) (by decide)).1, h.1⟩

/-- The built-in preset after a control request that carries a custom preset,
for every framework setter: absent if the preset-select entity is wired and
the setter reports a change, and otherwise whatever the setter returned. -/
theorem control_preset_after (set_custom_preset_ : PresetSetter)
    (self : NASA_Climate) (call : ClimateCall) (p : String)
    (hreq : call.custom_preset = some p) :
    (control set_custom_preset_ self call).1.preset =
      if self.select_presets_.isSome = true ∧
          (set_custom_preset_ self.custom_preset self.preset p).1 = true then none
      else (set_custom_preset_ self.custom_preset self.preset p).2.2 := by
  have h1 : (control_mode self call).1.custom_preset = self.custom_preset ∧
      (control_mode self call).1.preset = self.preset ∧
      (control_mode self call).1.select_presets_ = self.select_presets_ := by
    rw [control_mode_fst]; split <;> exact ⟨rfl, rfl, rfl⟩
  have h2 : ∀ s : NASA_Climate,
      (control_target_temp s call).1.custom_preset = s.custom_preset ∧
      (control_target_temp s call).1.preset = s.preset ∧
      (control_target_temp s call).1.select_presets_ = s.select_presets_ := by
    intro s
    rw [control_target_temp_fst]
    split
    · exact ⟨rfl, rfl, rfl⟩
    · rw [update_target_temp_snd]; split <;> exact ⟨rfl, rfl, rfl⟩
  obtain ⟨a1, a2, a3⟩ := h1
  obtain ⟨b1, b2, b3⟩ := h2 (control_mode self call).1
  simp only [control, control_custom_preset_fst, hreq, b1, b2, b3, a1, a2, a3]

end control_requests

section target_temperature

/-- C10, counterexample to the claim as stated: when the signalled target
temperature already is the stored one (21.0), the two calls publish nothing at
all, not once; and when it is a NaN the second call publishes again. -/
theorem C10_counterexample :
    publishes (on_target_temp { example_unit with target_temperature := f32_21 } f32_21).2 +
        publishes (on_target_temp
          (on_target_temp { example_unit with target_temperature := f32_21 } f32_21).1
          f32_21).2 = 0 ∧
      publishes (on_target_temp (on_target_temp example_unit f32_nan).1 f32_nan).2 = 1 := by
  decide

/-- C10 (amended): for every state and every target temperature t that is not
a NaN, the second of two successive on_target_temp(t) calls leaves the state
unchanged and publishes nothing, and the two calls together publish exactly
once if t differs from the target temperature stored before the first call
and not at all otherwise. -/
theorem C10_target_temp_twice (self : NASA_Climate) (t : F32) (hnum : t.isnan = false) :
    on_target_temp (on_target_temp self t).1 t = ((on_target_temp self t).1, []) ∧
      publishes (on_target_temp self t).2 +
          publishes (on_target_temp (on_target_temp self t).1 t).2
        = (if F32.ne self.target_temperature t = true then 1 else 0) := by
  cases hne : F32.ne self.target_temperature t
  · simp [on_target_temp, update_target_temp, hne, publish_if, publishes]
  · simp [on_target_temp, update_target_temp, hne, publish_if, publishes, F32.ne_self t hnum]

/-- C10 (amended) at a concrete unit: target 21.0 arrives twice at a unit
whose target temperature is not known yet. -/
theorem C10_target_temp_twice_witness :
    f32_21.isnan = false ∧
      on_target_temp (on_target_temp example_unit f32_21).1 f32_21
        = ({ example_unit with target_temperature := f32_21 }, []) ∧
      publishes (on_target_temp example_unit f32_21).2 +
          publishes (on_target_temp (on_target_temp example_unit f32_21).1 f32_21).2 = 1 :=
  have h := C10_target_temp_twice example_unit f32_21 (by decide)
  ⟨by decide, h.1.trans (by decide), h.2.trans (by decide)⟩

end target_temperature

section publish_on_change

/-- The power listener publishes once if a published field changed and not at
all otherwise. -/
theorem on_power_publishes (self : NASA_Climate) (state : Bool) :
    publishes (on_power self state).2 =
      if published_state (on_power self state).1 ≠ published_state self then 1 else 0 := by
  cases state
  · by_cases hoff : self.mode = CLIMATE_MODE_OFF
    · simp [on_power, update_mode_fst, update_mode_snd, publish_if, publishes, published_state,
        hoff]
    · simp [on_power, update_mode_fst, update_mode_snd, publish_if, publishes, published_state,
        hoff, Ne.symm hoff]
  · by_cases hoff : self.mode = CLIMATE_MODE_OFF
    · by_cases hlast : self.last_active_mode_ = CLIMATE_MODE_OFF
      · simp [on_power, update_mode_fst, update_mode_snd, publish_if, publishes,
          published_state, hoff, hlast]
      · simp [on_power, update_mode_fst, update_mode_snd, publish_if, publishes,
          published_state, hoff, hlast, Ne.symm hlast]
    · simp [on_power, publishes, hoff]

/-- The target-temperature listener, for a signal that is not a NaN. -/
theorem on_target_temp_publishes (self : NASA_Climate) (t : F32) (hnum : t.isnan = false) :
    publishes (on_target_temp self t).2 =
      if published_state (on_target_temp self t).1 ≠ published_state self then 1 else 0 := by
  cases hne : F32.ne self.target_temperature t
  · simp [on_target_temp, update_target_temp, hne, publish_if, publishes]
  · have hbits := F32.ne_bits self.target_temperature t hnum hne
    simp [on_target_temp, update_target_temp, hne, publish_if, publishes, published_state,
      Ne.symm hbits]

/-- The current-temperature listener, for a signal that is not a NaN. -/
theorem on_current_temp_publishes (self : NASA_Climate) (t : F32) (hnum : t.isnan = false) :
    publishes (on_current_temp self t).2 =
      if published_state (on_current_temp self t).1 ≠ published_state self then 1 else 0 := by
  cases hne : F32.ne self.current_temperature t
  · simp [on_current_temp, update_current_temp, hne, publish_if, publishes]
  · have hbits := F32.ne_bits self.current_temperature t hnum hne
    simp [on_current_temp, update_current_temp, hne, publish_if, publishes, published_state,
      Ne.symm hbits]

/-- The loop of the action-code listener, on every reading and platform. -/
theorem on_action_sens_loop_publishes (undefined_int : F32 → Int) (self : NASA_Climate)
    (x : F32) (map : List (Int × ClimateAction)) :
    publishes (on_action_sens_loop undefined_int self x map).2 =
      if published_state (on_action_sens_loop undefined_int self x map).1
          ≠ published_state self then 1 else 0 := by
  induction map with
  | nil => simp [on_action_sens_loop, publishes]
  | cons e rest ih =>
    obtain ⟨key, value⟩ := e
    by_cases hkey : static_cast_int_on undefined_int x = key
    · by_cases hsame : self.action = value
      · simp [on_action_sens_loop, hkey, update_action, hsame, publish_if, publishes]
      · simp [on_action_sens_loop, hkey, update_action, hsame, publish_if, publishes,
          published_state, Ne.symm hsame]
    · simp only [on_action_sens_loop, hkey, if_false]
      exact ih

/-- The action-code listener, on every reading and platform. -/
theorem on_action_sens_publishes (undefined_int : F32 → Int) (self : NASA_Climate) (x : F32) :
    publishes (on_action_sens undefined_int self x).2 =
      if published_state (on_action_sens undefined_int self x).1 ≠ published_state self then 1
      else 0 := by
  unfold on_action_sens
  cases self.mappings_ with
  | none => simp [publishes]
  | some map => exact on_action_sens_loop_publishes undefined_int self x map

/-- The preset listener, for a setter that reports a change exactly when it
changes the custom preset. -/
theorem on_preset_select_publishes (set_custom_preset_ : PresetSetter)
    (hsetter : ∀ c p v, (set_custom_preset_ c p v).1 = true ↔ (set_custom_preset_ c p v).2.1 ≠ c)
    (self : NASA_Climate) (state : String) (index : Nat) :
    publishes (on_preset_select set_custom_preset_ self state index).2 =
      if published_state (on_preset_select set_custom_preset_ self state index).1
          ≠ published_state self then 1 else 0 := by
  have hs := hsetter self.custom_preset self.preset state
  cases hflag : (set_custom_preset_ self.custom_preset self.preset state).1
  · have hsame : (set_custom_preset_ self.custom_preset self.preset state).2.1
        = self.custom_preset := by
      by_contra hcon
      rw [hs.mpr hcon] at hflag
      exact Bool.noConfusion hflag
    simp [on_preset_select, update_custom_preset, hflag, publish_if, publishes, published_state,
      hsame]
  · have hdiff := hs.mp hflag
    simp [on_preset_select, update_custom_preset, hflag, publish_if, publishes, published_state,
      hdiff]

/-- The member on_mode_select, for any mode. -/
theorem on_mode_select_publishes (self : NASA_Climate) (m : ClimateMode) :
    publishes (on_mode_select self m).2 =
      if published_state (on_mode_select self m).1 ≠ published_state self then 1 else 0 := by
  by_cases hsame : self.mode = m
  · subst hsame
    by_cases hoff : self.mode = CLIMATE_MODE_OFF
    · simp [on_mode_select, update_mode_fst, update_mode_snd, publish_if, publishes,
        published_state, hoff]
    · simp [on_mode_select, update_mode_fst, update_mode_snd, publish_if, publishes,
        published_state, hoff]
  · by_cases hm : m = CLIMATE_MODE_OFF
    · subst hm
      simp [on_mode_select, update_mode_fst, update_mode_snd, publish_if, publishes,
        published_state, hsame, Ne.symm hsame]
    · simp [on_mode_select, update_mode_fst, update_mode_snd, publish_if, publishes,
        published_state, hsame, Ne.symm hsame, hm]

/-- The mode-select listener body. -/
theorem mode_select_value_publishes (mem : Memory) (self : NASA_Climate) (value : Nat) :
    publishes (mode_select_value mem self value).2 =
      if published_state (mode_select_value mem self value).1 ≠ published_state self then 1
      else 0 := by
  unfold mode_select_value
  cases mode_select_new_mode mem value with
  | none => simp [publishes]
  | some m =>
    by_cases hoff : self.mode = CLIMATE_MODE_OFF
    · simp [hoff, publishes, published_state]
    · simp only [hoff, if_false]
      exact on_mode_select_publishes self m

/-- The published fields after a control request. -/
theorem control_published_state (set_custom_preset_ : PresetSetter) (self : NASA_Climate)
    (call : ClimateCall) :
    published_state (control set_custom_preset_ self call).1 =
      (call.mode.getD self.mode, self.action, self.current_temperature,
       (call.target_temperature.map fun t =>
          if F32.ne self.target_temperature t = true then t
          else self.target_temperature).getD self.target_temperature,
       (call.custom_preset.map fun p =>
          (set_custom_preset_ self.custom_preset self.preset p).2.1).getD self.custom_preset) := by
  obtain ⟨mode, target, custom⟩ := call
  cases mode <;> cases target <;> cases custom <;>
    simp only [control, control_mode_fst, control_target_temp_fst, control_custom_preset_fst,
      update_target_temp_snd, published_state, Option.getD, Option.map] <;>
    (try split) <;> rfl

/-- Whether a control request sets the update flag, in terms of the object
before the request. -/
theorem control_flags (set_custom_preset_ : PresetSetter) (self : NASA_Climate)
    (call : ClimateCall) :
    ((control_mode self call).2.2 ||
        (control_target_temp (control_mode self call).1 call).2.2 ||
        (control_custom_preset set_custom_preset_
          (control_target_temp (control_mode self call).1 call).1 call).2.2) =
      ((call.mode.map fun m => self.power_ && decide (self.mode ≠ m)).getD false ||
       (call.target_temperature.map fun t =>
          self.target_temp_ && F32.ne self.target_temperature t).getD false ||
       (call.custom_preset.map fun p =>
          self.select_presets_.isSome &&
            (set_custom_preset_ self.custom_preset self.preset p).1).getD false) := by
  obtain ⟨mode, target, custom⟩ := call
  cases mode <;> cases target <;> cases custom <;>
    simp only [control_mode_fst, control_mode_flag, control_target_temp_fst,
      control_target_temp_flag, control_custom_preset_flag, update_target_temp_snd,
      Option.getD, Option.map] <;>
    (try split) <;> rfl

/-- The mode block sets the flag exactly when it changes the live mode, if the
power entity is wired whenever a mode is requested. -/
theorem control_mode_flag_iff (self : NASA_Climate) (mode : Option ClimateMode)
    (hw : mode.isNone = true ∨ self.power_ = true) :
    (mode.map fun m => self.power_ && decide (self.mode ≠ m)).getD false = true ↔
      mode.getD self.mode ≠ self.mode := by
  cases mode with
  | none => simp
  | some m =>
    have hp : self.power_ = true := by simpa using hw
    simp only [Option.map, Option.getD, hp, Bool.true_and, decide_eq_true_eq]
    exact ne_comm

/-- The target-temperature block sets the flag exactly when it changes the
stored target temperature, if the entity is wired whenever a temperature is
requested and the requested temperature is not a NaN. -/
theorem control_target_temp_flag_iff (self : NASA_Climate) (target : Option F32)
    (hw : target.isNone = true ∨ self.target_temp_ = true)
    (hnum : ∀ t, target = some t → t.isnan = false) :
    (target.map fun t => self.target_temp_ && F32.ne self.target_temperature t).getD false
        = true ↔
      (target.map fun t =>
          if F32.ne self.target_temperature t = true then t
          else self.target_temperature).getD self.target_temperature
        ≠ self.target_temperature := by
  cases target with
  | none => simp
  | some t =>
    have hp : self.target_temp_ = true := by simpa using hw
    have hn : t.isnan = false := hnum t rfl
    cases hne : F32.ne self.target_temperature t
    · simp [hp, hne]
    · have hbits := F32.ne_bits self.target_temperature t hn hne
      simp [hp, hne, Ne.symm hbits]

/-- The custom-preset block sets the flag exactly when it changes the custom
preset, if the select is wired whenever a preset is requested and the setter
reports a change exactly when it changes the custom preset. -/
theorem control_custom_preset_flag_iff (set_custom_preset_ : PresetSetter)
    (hsetter : ∀ c p v, (set_custom_preset_ c p v).1 = true ↔ (set_custom_preset_ c p v).2.1 ≠ c)
    (self : NASA_Climate) (custom : Option String)
    (hw : custom.isNone = true ∨ self.select_presets_.isSome = true) :
    (custom.map fun p =>
        self.select_presets_.isSome &&
          (set_custom_preset_ self.custom_preset self.preset p).1).getD false = true ↔
      (custom.map fun p =>
          (set_custom_preset_ self.custom_preset self.preset p).2.1).getD self.custom_preset
        ≠ self.custom_preset := by
  cases custom with
  | none => simp
  | some p =>
    have hp : self.select_presets_.isSome = true := by simpa using hw
    simp only [Option.map, Option.getD, hp, Bool.true_and]
    exact hsetter self.custom_preset self.preset p

/-- A control request whose requested parts all have their entity wired and
whose temperature is not a NaN publishes once if a published field changed and
not at all otherwise. -/
theorem control_publishes_on_change (set_custom_preset_ : PresetSetter)
    (hsetter : ∀ c p v, (set_custom_preset_ c p v).1 = true ↔ (set_custom_preset_ c p v).2.1 ≠ c)
    (self : NASA_Climate) (call : ClimateCall)
    (hnum : (Event.control call).carries_nan = false)
    (hwired : (Event.control call).entities_wired self = true) :
    publishes (control set_custom_preset_ self call).2 =
      if published_state (control set_custom_preset_ self call).1 ≠ published_state self then 1
      else 0 := by
  rw [control_publishes, control_flags, control_published_state]
  simp only [Event.entities_wired, Bool.and_eq_true, Bool.or_eq_true] at hwired
  obtain ⟨⟨hw1, hw2⟩, hw3⟩ := hwired
  have hn : ∀ t, call.target_temperature = some t → t.isnan = false := by
    intro t ht
    simpa [Event.carries_nan, ht] using hnum
  have hA := control_mode_flag_iff self call.mode hw1
  have hB := control_target_temp_flag_iff self call.target_temperature hw2 hn
  have hC := control_custom_preset_flag_iff set_custom_preset_ hsetter self call.custom_preset hw3
  simp only [published_state, Bool.or_eq_true, hA, hB, hC, ne_eq, Prod.mk.injEq, true_and,
    not_and_or, or_assoc]

/-- C2, counterexample to the claim as stated: publication and change of the
Unified Climate State do not always coincide.  A mode-select signal ("Cool")
reaching a unit that is off changes last_active_mode_ and publishes nothing; a
control request for Heat on a unit without power entity changes the live mode
and publishes nothing; and a NaN current-temperature signal reaching a unit
whose current temperature already is that NaN publishes although no field
changed. -/
theorem C2_counterexample :
    (deliver set_custom_preset_spec undefined_int_saturating example_memory example_unit
          (Event.mode_select 1)
        = some ({ example_unit with last_active_mode_ := CLIMATE_MODE_COOL }, []) ∧
      unified_state { example_unit with last_active_mode_ := CLIMATE_MODE_COOL }
        ≠ unified_state example_unit) ∧
    (deliver set_custom_preset_spec undefined_int_saturating example_memory
          { example_unit with power_ := false }
          (Event.control ⟨some CLIMATE_MODE_HEAT, none, none⟩)
        = some ({ example_unit with power_ := false, mode := CLIMATE_MODE_HEAT }, []) ∧
      unified_state { example_unit with power_ := false, mode := CLIMATE_MODE_HEAT }
        ≠ unified_state { example_unit with power_ := false }) ∧
    deliver set_custom_preset_spec undefined_int_saturating example_memory example_unit
          (Event.current_temp f32_nan)
        = some (example_unit, [publish_state]) := by
  refine ⟨⟨by decide, by decide⟩, ⟨by decide, by decide⟩, by decide⟩

/-- C2 (amended): for every event that can be delivered, every starting state
and every wiring, provided that a temperature the event carries is not a NaN,
that every part of a control request has its outbound entity wired, and that
the framework setter reports a change exactly when it changes the custom
preset: the handler calls publish_state exactly once if at least one of the
published fields (mode, action, current_temperature, target_temperature,
custom_preset) differs between the state before and the state after, and not
at all otherwise.  The memory last_active_mode_ is not among them. -/
theorem C2_publish_iff_published_field_changed (set_custom_preset_ : PresetSetter)
    (undefined_int : F32 → Int) (mem : Memory) (self : NASA_Climate) (e : Event)
    (after : NASA_Climate) (effects : List Effect)
    (hsetter : ∀ c p v, (set_custom_preset_ c p v).1 = true ↔ (set_custom_preset_ c p v).2.1 ≠ c)
    (hnum : e.carries_nan = false)
    (hwired : e.entities_wired self = true)
    (hstep : deliver set_custom_preset_ undefined_int mem self e = some (after, effects)) :
    (publish_state ∈ effects ↔ published_state after ≠ published_state self) ∧
      publishes effects = (if published_state after ≠ published_state self then 1 else 0) := by
  have hcount : publishes effects
      = (if published_state after ≠ published_state self then 1 else 0) := by
    cases e with
    | power state =>
      simp only [deliver] at hstep
      split at hstep
      · simp only [Option.some.injEq] at hstep
        have h := on_power_publishes self state
        rw [hstep] at h
        exact h
      · exact absurd hstep (by simp)
    | target_temp state =>
      simp only [deliver] at hstep
      split at hstep
      · simp only [Option.some.injEq] at hstep
        have h := on_target_temp_publishes self state hnum
        rw [hstep] at h
        exact h
      · exact absurd hstep (by simp)
    | current_temp state =>
      simp only [deliver] at hstep
      split at hstep
      · simp only [Option.some.injEq] at hstep
        have h := on_current_temp_publishes self state hnum
        rw [hstep] at h
        exact h
      · exact absurd hstep (by simp)
    | action_sens state =>
      simp only [deliver] at hstep
      split at hstep
      · simp only [Option.some.injEq] at hstep
        have h := on_action_sens_publishes undefined_int self state
        rw [hstep] at h
        exact h
      · exact absurd hstep (by simp)
    | preset_select index =>
      simp only [deliver] at hstep
      cases hsel : self.select_presets_ with
      | none => simp [hsel] at hstep
      | some options =>
        simp only [hsel, select_presets_callback] at hstep
        cases hopt : options[index]? with
        | none => simp [hopt] at hstep
        | some state =>
          simp only [hopt, Option.some.injEq] at hstep
          have h := on_preset_select_publishes set_custom_preset_ hsetter self state index
          rw [hstep] at h
          exact h
    | mode_select index =>
      simp only [deliver] at hstep
      cases hsel : self.mode_select_ with
      | none => simp [hsel] at hstep
      | some options =>
        simp only [hsel, mode_select_callback] at hstep
        cases hopt : options[index]? with
        | none => simp [hopt] at hstep
        | some value =>
          simp only [hopt, Option.some.injEq] at hstep
          have h := mode_select_value_publishes mem self value
          rw [hstep] at h
          exact h
    | control call =>
      simp only [deliver, Option.some.injEq] at hstep
      have h := control_publishes_on_change set_custom_preset_ hsetter self call hnum hwired
      rw [hstep] at h
      exact h
  refine ⟨?_, hcount⟩
  rw [← List.count_pos_iff]
  unfold publishes at hcount
  rw [hcount]
  split <;> simp_all

/-- C2 (amended) at a concrete unit: a control request for Heat, 21.0 and the
custom preset "Eco" reaches the fully wired unit that is off; all three fields
change, four commands are issued and the state is published once. -/
theorem C2_publish_iff_published_field_changed_witness :
    (Event.control ⟨some CLIMATE_MODE_HEAT, some f32_21, some "Eco"⟩).carries_nan = false ∧
      (Event.control ⟨some CLIMATE_MODE_HEAT, some f32_21, some "Eco"⟩).entities_wired
        example_unit = true ∧
      deliver set_custom_preset_spec undefined_int_saturating example_memory example_unit
          (Event.control ⟨some CLIMATE_MODE_HEAT, some f32_21, some "Eco"⟩)
        = some ({ example_unit with mode := CLIMATE_MODE_HEAT, target_temperature := f32_21,
                                    custom_preset := some "Eco" },
            [power_turn_on, mode_select_perform (some "Heat"), target_temp_set_value f32_21,
              select_presets_perform (some "Eco"), publish_state]) ∧
      ((publish_state ∈ [power_turn_on, mode_select_perform (some "Heat"),
            target_temp_set_value f32_21, select_presets_perform (some "Eco"), publish_state] ↔
          published_state { example_unit with mode := CLIMATE_MODE_HEAT,
                                              target_temperature := f32_21,
                                              custom_preset := some "Eco" }
            ≠ published_state example_unit) ∧
        publishes [power_turn_on, mode_select_perform (some "Heat"),
            target_temp_set_value f32_21, select_presets_perform (some "Eco"), publish_state]
          = (if published_state { example_unit with mode := CLIMATE_MODE_HEAT,
                                                    target_temperature := f32_21,
                                                    custom_preset := some "Eco" }
              ≠ published_state example_unit then 1 else 0)) :=
  ⟨by decide, by decide, by decide,
    C2_publish_iff_published_field_changed set_custom_preset_spec undefined_int_saturating
      example_memory example_unit
      (Event.control ⟨some CLIMATE_MODE_HEAT, some f32_21, some "Eco"⟩)
      { example_unit with mode := CLIMATE_MODE_HEAT, target_temperature := f32_21,
                          custom_preset := some "Eco" }
      [power_turn_on, mode_select_perform (some "Heat"), target_temp_set_value f32_21,
        select_presets_perform (some "Eco"), publish_state]
      set_custom_preset_spec_reports_change (by decide) (by decide) (by decide)⟩

end publish_on_change

section mode_memory

/-- An event that changes neither the live mode nor last_active_mode_, chooses
no mode and is no unremembered request for Off keeps the memory invariant. -/
theorem memory_tracked_of_frame (mem : Memory) (self after : NASA_Climate)
    (recent : Option ClimateMode) (stale : Bool) (e : Event)
    (hinv : memory_tracked self recent stale)
    (hmode : after.mode = self.mode) (hlast : after.last_active_mode_ = self.last_active_mode_)
    (hchosen : e.chosen_mode mem self = none)
    (hreq : e.off_request_unremembered self = false) :
    memory_tracked after (track_recent mem recent self e after)
      (track_stale mem stale self e after) := by
  unfold memory_tracked track_recent track_stale at *
  rw [hmode, hlast, hchosen, hreq]
  obtain ⟨hon, hdown, hup⟩ := hinv
  by_cases hoff : self.mode = CLIMATE_MODE_OFF
  · simp only [hoff, ne_eq, not_true_eq_false, if_false, false_implies, true_implies, true_and,
      Option.isSome_none, Bool.false_eq_true]
    exact ⟨hdown hoff, hup hoff⟩
  · simp [hoff]

/-- The power listener keeps the memory invariant. -/
theorem on_power_memory_tracked (mem : Memory) (self : NASA_Climate)
    (recent : Option ClimateMode) (stale : Bool) (state : Bool)
    (hinv : memory_tracked self recent stale) :
    memory_tracked (on_power self state).1
      (track_recent mem recent self (Event.power state) (on_power self state).1)
      (track_stale mem stale self (Event.power state) (on_power self state).1) := by
  by_cases hoff : self.mode = CLIMATE_MODE_OFF
  · cases state
    · refine memory_tracked_of_frame mem self _ recent stale _ hinv ?_ ?_ rfl rfl <;>
        simp [on_power, update_mode_snd, hoff]
    · by_cases hlast : self.last_active_mode_ = CLIMATE_MODE_OFF
      · refine memory_tracked_of_frame mem self _ recent stale _ hinv ?_ ?_ rfl rfl <;>
          simp [on_power, update_mode_snd, hoff, hlast]
      · unfold memory_tracked track_recent track_stale
        simp [on_power, update_mode_snd, hoff, hlast]
  · obtain ⟨hon, -, -⟩ := hinv
    obtain ⟨hrecent, hstale⟩ := hon hoff
    cases state
    · unfold memory_tracked track_recent track_stale
      simp [on_power, update_mode_snd, hoff, Event.chosen_mode, Event.off_request_unremembered,
        hrecent, hstale]
    · refine memory_tracked_of_frame mem self _ recent stale _ ⟨hon, ?_, ?_⟩ ?_ ?_ rfl rfl
      · intro h; exact absurd h hoff
      · intro h; exact absurd h hoff
      · simp [on_power, hoff]
      · simp [on_power, hoff]

/-- The mode-select listener keeps the memory invariant when it resolves its
option to the mode the text of the option names. -/
theorem mode_select_memory_tracked (mem : Memory) (self : NASA_Climate)
    (recent : Option ClimateMode) (stale : Bool)
    (options : List Nat) (index : Nat) (value : Nat)
    (hsel : self.mode_select_ = some options) (hopt : options[index]? = some value)
    (hlabel : mode_select_new_mode mem value = spec_label_mode (mem.text_at value))
    (hinv : memory_tracked self recent stale) :
    memory_tracked (mode_select_value mem self value).1
      (track_recent mem recent self (Event.mode_select index) (mode_select_value mem self value).1)
      (track_stale mem stale self (Event.mode_select index)
        (mode_select_value mem self value).1) := by
  have hchosen : (Event.mode_select index).chosen_mode mem self
      = mode_select_new_mode mem value := by
    simp [Event.chosen_mode, hsel, hopt, hlabel]
  cases hres : mode_select_new_mode mem value with
  | none =>
    rw [hres] at hchosen
    refine memory_tracked_of_frame mem self _ recent stale _ hinv ?_ ?_ hchosen rfl <;>
      simp [mode_select_value, hres]
  | some m =>
    have hm := (mode_select_new_mode_text mem value m hres).2
    rw [hres] at hchosen
    unfold memory_tracked track_recent track_stale
    rw [hchosen]
    by_cases hoff : self.mode = CLIMATE_MODE_OFF
    · simp [mode_select_value, hres, hoff]
    · simp [mode_select_value, hres, hoff, on_mode_select, update_mode_snd, hm]

/-- The loop of on_action_sens changes neither the live mode nor
last_active_mode_. -/
theorem on_action_sens_loop_frame (undefined_int : F32 → Int) (self : NASA_Climate) (x : F32)
    (map : List (Int × ClimateAction)) :
    (on_action_sens_loop undefined_int self x map).1.mode = self.mode ∧
      (on_action_sens_loop undefined_int self x map).1.last_active_mode_
        = self.last_active_mode_ := by
  induction map with
  | nil => exact ⟨rfl, rfl⟩
  | cons e rest ih =>
    obtain ⟨key, value⟩ := e
    by_cases hkey : static_cast_int_on undefined_int x = key
    · simp only [on_action_sens_loop, hkey, if_true]
      unfold update_action
      split <;> exact ⟨rfl, rfl⟩
    · simp only [on_action_sens_loop, hkey, if_false]
      exact ih

/-- Member on_action_sens changes neither the live mode nor
last_active_mode_. -/
theorem on_action_sens_frame (undefined_int : F32 → Int) (self : NASA_Climate) (x : F32) :
    (on_action_sens undefined_int self x).1.mode = self.mode ∧
      (on_action_sens undefined_int self x).1.last_active_mode_ = self.last_active_mode_ := by
  unfold on_action_sens
  cases self.mappings_ with
  | none => exact ⟨rfl, rfl⟩
  | some map => exact on_action_sens_loop_frame undefined_int self x map

/-- The live mode after a control request is the requested mode if there is
one. -/
theorem control_mode_after (set_custom_preset_ : PresetSetter) (self : NASA_Climate)
    (call : ClimateCall) :
    (control set_custom_preset_ self call).1.mode = call.mode.getD self.mode := by
  have h := control_published_state set_custom_preset_ self call
  simp only [published_state, Prod.mk.injEq] at h
  exact h.1

/-- A control request keeps the memory invariant, raising the flag exactly
when it is an unremembered request for Off. -/
theorem control_memory_tracked (set_custom_preset_ : PresetSetter) (mem : Memory)
    (self : NASA_Climate) (recent : Option ClimateMode) (stale : Bool) (call : ClimateCall)
    (hinv : memory_tracked self recent stale) :
    memory_tracked (control set_custom_preset_ self call).1
      (track_recent mem recent self (Event.control call) (control set_custom_preset_ self call).1)
      (track_stale mem stale self (Event.control call)
        (control set_custom_preset_ self call).1) := by
  have hmode := control_mode_after set_custom_preset_ self call
  have hlast := control_last_active_mode_frame set_custom_preset_ self call
  cases hreq : call.mode with
  | none =>
    rw [hreq] at hmode
    exact memory_tracked_of_frame mem self _ recent stale _ hinv hmode hlast rfl
      (by simp [Event.off_request_unremembered, hreq])
  | some m =>
    rw [hreq] at hmode
    simp only [Option.getD_some] at hmode
    by_cases hm : m = CLIMATE_MODE_OFF
    · subst hm
      by_cases hoff : self.mode = CLIMATE_MODE_OFF
      · exact memory_tracked_of_frame mem self _ recent stale _ hinv (by rw [hmode, hoff]) hlast
          rfl (by simp [Event.off_request_unremembered, hoff])
      · obtain ⟨hon, -, -⟩ := hinv
        obtain ⟨hrecent, hstale⟩ := hon hoff
        unfold memory_tracked track_recent track_stale
        rw [hmode, hlast]
        by_cases hsame : self.last_active_mode_ = self.mode
        · simp [Event.chosen_mode, Event.off_request_unremembered, hreq, hoff, hsame, hrecent,
            hstale]
        · simp [Event.chosen_mode, Event.off_request_unremembered, hreq, hoff, hsame, hrecent]
    · unfold memory_tracked track_recent track_stale
      rw [hmode, hlast]
      simp [hm]

/-- Delivery of one event keeps the memory invariant, if a mode-select event
has its option resolved to the mode its text names. -/
theorem deliver_memory_tracked (set_custom_preset_ : PresetSetter) (undefined_int : F32 → Int)
    (mem : Memory) (self : NASA_Climate) (recent : Option ClimateMode) (stale : Bool)
    (e : Event) (r : NASA_Climate × List Effect)
    (hinv : memory_tracked self recent stale)
    (hlabel : e.label_at_literal mem self = true)
    (hstep : deliver set_custom_preset_ undefined_int mem self e = some r) :
    memory_tracked r.1 (track_recent mem recent self e r.1)
      (track_stale mem stale self e r.1) := by
  cases e with
  | power state =>
    simp only [deliver] at hstep
    split at hstep
    · simp only [Option.some.injEq] at hstep
      subst hstep
      exact on_power_memory_tracked mem self recent stale state hinv
    · exact absurd hstep (by simp)
  | target_temp state =>
    simp only [deliver] at hstep
    split at hstep
    · simp only [Option.some.injEq] at hstep
      subst hstep
      refine memory_tracked_of_frame mem self _ recent stale _ hinv ?_ ?_ rfl rfl <;>
        (simp only [on_target_temp, update_target_temp_snd]; split <;> rfl)
    · exact absurd hstep (by simp)
  | current_temp state =>
    simp only [deliver] at hstep
    split at hstep
    · simp only [Option.some.injEq] at hstep
      subst hstep
      refine memory_tracked_of_frame mem self _ recent stale _ hinv ?_ ?_ rfl rfl <;>
        (simp only [on_current_temp, update_current_temp_snd]; split <;> rfl)
    · exact absurd hstep (by simp)
  | action_sens state =>
    simp only [deliver] at hstep
    split at hstep
    · simp only [Option.some.injEq] at hstep
      subst hstep
      obtain ⟨h1, h2⟩ := on_action_sens_frame undefined_int self state
      exact memory_tracked_of_frame mem self _ recent stale _ hinv h1 h2 rfl rfl
    · exact absurd hstep (by simp)
  | preset_select index =>
    simp only [deliver] at hstep
    cases hsel : self.select_presets_ with
    | none => simp [hsel] at hstep
    | some options =>
      simp only [hsel, select_presets_callback] at hstep
      cases hopt : options[index]? with
      | none => simp [hopt] at hstep
      | some state =>
        simp only [hopt, Option.some.injEq] at hstep
        subst hstep
        exact memory_tracked_of_frame mem self _ recent stale _ hinv rfl rfl rfl rfl
  | mode_select index =>
    simp only [deliver] at hstep
    cases hsel : self.mode_select_ with
    | none => simp [hsel] at hstep
    | some options =>
      simp only [hsel, mode_select_callback] at hstep
      cases hopt : options[index]? with
      | none => simp [hopt] at hstep
      | some value =>
        simp only [hopt, Option.some.injEq] at hstep
        subst hstep
        have hres : mode_select_new_mode mem value = spec_label_mode (mem.text_at value) := by
          simpa [Event.label_at_literal, hsel, hopt] using hlabel
        exact mode_select_memory_tracked mem self recent stale options index value hsel hopt
          hres hinv
  | control call =>
    simp only [deliver, Option.some.injEq] at hstep
    subst hstep
    exact control_memory_tracked set_custom_preset_ mem self recent stale call hinv

/-- Delivery of a sequence of events keeps the memory invariant, if every
mode-select event has its option resolved to the mode its text names. -/
theorem run_memory_tracked (set_custom_preset_ : PresetSetter) (undefined_int : F32 → Int)
    (mem : Memory) (events : List Event)
    (self : NASA_Climate) (recent : Option ClimateMode) (stale : Bool)
    (final : NASA_Climate) (last : Option ClimateMode) (flag : Bool)
    (hinv : memory_tracked self recent stale)
    (hlabels : labels_at_literals set_custom_preset_ undefined_int mem self events = true)
    (hrun : run set_custom_preset_ undefined_int mem (self, recent, stale) events
      = some (final, last, flag)) :
    memory_tracked final last flag := by
  induction events generalizing self recent stale with
  | nil =>
    simp only [run, Option.some.injEq, Prod.mk.injEq] at hrun
    obtain ⟨h1, h2, h3⟩ := hrun
    subst h1 h2 h3
    exact hinv
  | cons e rest ih =>
    cases hstep : deliver set_custom_preset_ undefined_int mem self e with
    | none => simp [run, hstep] at hrun
    | some r =>
      simp only [run, hstep] at hrun
      simp only [labels_at_literals, hstep, Bool.and_eq_true] at hlabels
      exact ih r.1 (track_recent mem recent self e r.1) (track_stale mem stale self e r.1)
        (deliver_memory_tracked set_custom_preset_ undefined_int mem self recent stale e r hinv
          hlabels.1 hstep)
        hlabels.2 hrun

/-- C3, counterexample to the claim as stated: from a unit that is off and
remembers Heat, a control request for Cool followed by a control request for
Off ends with the unit off, Cool being the most recent non-Off mode, and
last_active_mode_ still Heat. -/
theorem C3_counterexample :
    run set_custom_preset_spec undefined_int_saturating example_memory
        (example_unit, initial_recent example_unit, false)
        [Event.control ⟨some CLIMATE_MODE_COOL, none, none⟩,
         Event.control ⟨some CLIMATE_MODE_OFF, none, none⟩]
      = some (example_unit, some CLIMATE_MODE_COOL, true) ∧
    example_unit.mode = CLIMATE_MODE_OFF ∧
    example_unit.last_active_mode_ ≠ CLIMATE_MODE_COOL := by
  refine ⟨by decide, by decide, by decide⟩

/-- C3 (amended): in every state reached from any starting state by a finite
sequence of events (power, temperature, action-code, preset-select and
mode-select signals and control requests) in which every mode-select signal
whose label is one of the five carries the option the listener resolves: if
the live mode is Off and a non-Off mode was set at some earlier point, then
last_active_mode_ is the most recent non-Off mode (the latest non-Off value
held by the live mode or chosen through a mode-select signal), except when the
unit is off since a control request for Off that arrived while the live mode
differed from last_active_mode_ and no mode-select signal has chosen a mode
since; in exactly that case last_active_mode_ is another mode. -/
theorem C3_last_active_mode_is_most_recent (set_custom_preset_ : PresetSetter)
    (undefined_int : F32 → Int) (mem : Memory)
    (self : NASA_Climate) (events : List Event) (final : NASA_Climate)
    (recent : Option ClimateMode) (stale : Bool) (m : ClimateMode)
    (hlabels : labels_at_literals set_custom_preset_ undefined_int mem self events = true)
    (hrun : run set_custom_preset_ undefined_int mem (self, initial_recent self, false) events
      = some (final, recent, stale))
    (hoff : final.mode = CLIMATE_MODE_OFF)
    (hset : recent = some m) :
    (final.last_active_mode_ = m ↔ stale = false) := by
  have hinit : memory_tracked self (initial_recent self) false := by
    unfold memory_tracked initial_recent
    by_cases h : self.mode = CLIMATE_MODE_OFF <;> simp [h]
  have hinv := run_memory_tracked set_custom_preset_ undefined_int mem events self
    (initial_recent self) false final recent stale hinit hlabels hrun
  obtain ⟨-, hdown, hup⟩ := hinv
  cases stale with
  | false =>
    refine ⟨fun _ => rfl, fun _ => ?_⟩
    rcases hdown hoff rfl with hnone | hsome
    · rw [hset] at hnone
      exact absurd hnone (by simp)
    · rw [hset] at hsome
      exact (Option.some.inj hsome).symm
  | true =>
    obtain ⟨x, hx, hne⟩ := hup hoff rfl
    rw [hset] at hx
    have hxm : m = x := Option.some.inj hx
    subst hxm
    exact ⟨fun h => absurd h hne, fun h => absurd h (by simp)⟩

/-- C3 (amended) at a concrete unit: off remembering Heat; a control request
for Cool, a control request for Off (Cool is not remembered), then a
mode-select signal for Dry (index 2) while off: the memory is Dry again, the
most recent non-Off mode. -/
theorem C3_last_active_mode_is_most_recent_witness :
    labels_at_literals set_custom_preset_spec undefined_int_saturating example_memory
        example_unit
        [Event.control ⟨some CLIMATE_MODE_COOL, none, none⟩,
         Event.control ⟨some CLIMATE_MODE_OFF, none, none⟩, Event.mode_select 2] = true ∧
      run set_custom_preset_spec undefined_int_saturating example_memory
        (example_unit, initial_recent example_unit, false)
        [Event.control ⟨some CLIMATE_MODE_COOL, none, none⟩,
         Event.control ⟨some CLIMATE_MODE_OFF, none, none⟩, Event.mode_select 2]
        = some ({ example_unit with last_active_mode_ := CLIMATE_MODE_DRY },
            some CLIMATE_MODE_DRY, false) ∧
      ({ example_unit with
          last_active_mode_ := CLIMATE_MODE_DRY } : NASA_Climate).mode = CLIMATE_MODE_OFF ∧
      (({ example_unit with
          last_active_mode_ := CLIMATE_MODE_DRY } : NASA_Climate).last_active_mode_
        = CLIMATE_MODE_DRY ↔ false = false) :=
  ⟨by decide, by decide, by decide,
    C3_last_active_mode_is_most_recent set_custom_preset_spec undefined_int_saturating
      example_memory example_unit
      [Event.control ⟨some CLIMATE_MODE_COOL, none, none⟩,
       Event.control ⟨some CLIMATE_MODE_OFF, none, none⟩, Event.mode_select 2]
      { example_unit with last_active_mode_ := CLIMATE_MODE_DRY } (some CLIMATE_MODE_DRY) false
      CLIMATE_MODE_DRY (by decide) (by decide) (by decide) rfl⟩

end mode_memory

section capabilities

/-- The loop of traits adds the configured modes to the supported ones and
touches nothing else. -/
theorem traits_add_modes_supported_modes (modes : List ClimateMode) (t : ClimateTraits) :
    (traits_add_modes t modes).supported_modes = t.supported_modes ∪ modes.toFinset := by
  induction modes generalizing t with
  | nil => simp [traits_add_modes]
  | cons mode rest ih =>
    rw [traits_add_modes, ih]
    ext m
    simp only [ClimateTraits.add_supported_mode, Finset.mem_union, Finset.mem_insert,
      List.toFinset_cons]
    tauto

/-- C11: the supported modes reported by traits are exactly Off and Heat when
no mode is configured, and exactly the configured modes together with Off
otherwise, so Off is always reported; configured Cool and Dry give Off, Cool
and Dry. -/
theorem C11_traits_supported_modes (self : NASA_Climate) :
    (traits self).supported_modes =
        (if self.supported_modes_ = [] then {CLIMATE_MODE_OFF, CLIMATE_MODE_HEAT}
         else insert CLIMATE_MODE_OFF self.supported_modes_.toFinset) ∧
      CLIMATE_MODE_OFF ∈ (traits self).supported_modes ∧
      (traits { example_unit with
          supported_modes_ := [CLIMATE_MODE_COOL, CLIMATE_MODE_DRY] }).supported_modes
        = {CLIMATE_MODE_OFF, CLIMATE_MODE_COOL, CLIMATE_MODE_DRY} ∧
      (traits { example_unit with supported_modes_ := [] }).supported_modes
        = {CLIMATE_MODE_OFF, CLIMATE_MODE_HEAT} := by
  have hmodes : (traits self).supported_modes =
      (if self.supported_modes_ = [] then {CLIMATE_MODE_OFF, CLIMATE_MODE_HEAT}
       else insert CLIMATE_MODE_OFF self.supported_modes_.toFinset) := by
    have hshape : (traits self).supported_modes =
        (if self.supported_modes_.isEmpty = true then
            (({CLIMATE_MODE_OFF, CLIMATE_MODE_HEAT} : Finset ClimateMode))
          else (traits_add_modes
            (((ClimateTraits.empty.add_feature_flags
                ClimateFeature.CLIMATE_SUPPORTS_CURRENT_TEMPERATURE).add_feature_flags
                ClimateFeature.CLIMATE_SUPPORTS_ACTION).add_supported_mode CLIMATE_MODE_OFF)
            self.supported_modes_).supported_modes) := by
      unfold traits
      cases self.select_presets_ <;> cases self.supported_modes_ <;>
        simp [ClimateTraits.set_supported_presets, ClimateTraits.set_supported_custom_presets,
          ClimateTraits.set_supported_modes]
    rw [hshape, traits_add_modes_supported_modes]
    cases hC : self.supported_modes_ with
    | nil => simp
    | cons mode rest =>
      simp only [ClimateTraits.add_supported_mode, ClimateTraits.add_feature_flags,
        ClimateTraits.empty, List.isEmpty_cons, Bool.false_eq_true, if_false]
      ext m
      simp only [Finset.mem_union, Finset.mem_insert, List.toFinset_cons, Finset.not_mem_empty,
        or_false, reduceCtorEq, if_false]
  refine ⟨hmodes, ?_, by decide, by decide⟩
  rw [hmodes]
  split <;> simp

/-- C12: a mode-select signal whose label is not exactly one of Heat, Cool,
Dry, Fan, Auto leaves the whole object unchanged (mode and last_active_mode_
included) and publishes nothing, wherever the option is stored. -/
theorem C12_unknown_label_ignored (mem : Memory) (self : NASA_Climate) (options : List Nat)
    (index : Nat) (value : Nat)
    (hidx : options[index]? = some value)
    (hunknown : mem.text_at value ∉ ["Heat", "Cool", "Dry", "Fan", "Auto"]) :
    mode_select_callback mem options self index = some (self, []) := by
  simp only [List.mem_cons, List.mem_singleton, List.mem_nil_iff, or_false, not_or] at hunknown
  obtain ⟨h1, h2, h3, h4, h5⟩ := hunknown
  have hlabel : spec_label_mode (mem.text_at value) = none := by
    simp [spec_label_mode, h1, h2, h3, h4, h5]
  simp [mode_select_callback, hidx, mode_select_value,
    mode_select_new_mode_unknown mem value hlabel]

/-- C12 at a concrete unit: cooling, and the select reports an option with
the text "heat" in lower case. -/
theorem C12_unknown_label_ignored_witness :
    ([1, 21] : List Nat)[1]? = some 21 ∧
      example_memory.text_at 21 = "heat" ∧
      example_memory.text_at 21 ∉ ["Heat", "Cool", "Dry", "Fan", "Auto"] ∧
      mode_select_callback example_memory [1, 21]
          { example_unit with mode := CLIMATE_MODE_COOL } 1
        = some ({ example_unit with mode := CLIMATE_MODE_COOL }, []) :=
  ⟨by decide, by decide, by decide,
    C12_unknown_label_ignored example_memory { example_unit with mode := CLIMATE_MODE_COOL }
      [1, 21] 1 21 (by decide) (by decide)⟩

end capabilities

section power_idempotent

/-- C18: on_power is idempotent for a repeated signal: whatever the state
(also Off, and whatever last_active_mode_ holds) and whatever the signal, a
second on_power with the same signal changes nothing and publishes nothing. -/
theorem C18_on_power_idempotent (self : NASA_Climate) (state : Bool) :
    on_power (on_power self state).1 state = ((on_power self state).1, []) := by
  cases state
  · by_cases hoff : self.mode = CLIMATE_MODE_OFF
    · simp [on_power, update_mode, hoff, publish_if]
    · simp [on_power, update_mode, hoff, publish_if]
  · by_cases hoff : self.mode = CLIMATE_MODE_OFF
    · by_cases hlast : self.last_active_mode_ = CLIMATE_MODE_OFF
      · simp [on_power, update_mode, hoff, hlast, publish_if]
      · simp [on_power, update_mode, hoff, hlast, Ne.symm hlast, publish_if]
    · simp [on_power, hoff]

end power_idempotent

section gatekeeper_contract

/-- C13, counterexample to the claim as stated: for a NaN candidate the
temperature gatekeepers report a change on every call.  An immediately
repeated update_target_temp with the same NaN returns true again, and so does
update_current_temp; and after the call the stored value does not compare
equal to the candidate. -/
theorem C13_counterexample :
    (update_target_temp (update_target_temp example_unit f32_nan).2 f32_nan).1 = true ∧
      (update_current_temp (update_current_temp example_unit f32_nan).2 f32_nan).1 = true ∧
      F32.ne (update_target_temp example_unit f32_nan).2.target_temperature f32_nan = true := by
  refine ⟨by decide, by decide, by decide⟩

/-- C13 (amended): update_action and update_mode, for every state and
candidate v, and update_current_temp and update_target_temp, for every state
and every candidate v that is not a NaN: the call returns true if and only if
v differs from the current value of its field (for a temperature: under the
C++ comparison, for which +0 and -0 are equal); afterwards the field equals v
(for a temperature: compares equal to v); every other field is unchanged; and
an immediately repeated call with the same v returns false and changes
nothing. -/
theorem C13_gatekeepers_compare_and_set (self : NASA_Climate) (a : ClimateAction)
    (m : ClimateMode) (v : F32) (hnum : v.isnan = false) :
    (((update_action self a).1 = true ↔ self.action ≠ a) ∧
        (update_action self a).2 = { self with action := a } ∧
        update_action (update_action self a).2 a = (false, (update_action self a).2)) ∧
      (((update_mode self m).1 = true ↔ self.mode ≠ m) ∧
        (update_mode self m).2 = { self with mode := m } ∧
        update_mode (update_mode self m).2 m = (false, (update_mode self m).2)) ∧
      (((update_current_temp self v).1 = true ↔ F32.ne self.current_temperature v = true) ∧
        F32.ne (update_current_temp self v).2.current_temperature v = false ∧
        { (update_current_temp self v).2 with
            current_temperature := self.current_temperature } = self ∧
        update_current_temp (update_current_temp self v).2 v
          = (false, (update_current_temp self v).2)) ∧
      (((update_target_temp self v).1 = true ↔ F32.ne self.target_temperature v = true) ∧
        F32.ne (update_target_temp self v).2.target_temperature v = false ∧
        { (update_target_temp self v).2 with
            target_temperature := self.target_temperature } = self ∧
        update_target_temp (update_target_temp self v).2 v
          = (false, (update_target_temp self v).2)) := by
  refine ⟨?_, ?_, ?_, ?_⟩
  · by_cases h : self.action = a
    · subst h
      simp [update_action]
    · simp [update_action, h]
  · by_cases h : self.mode = m
    · subst h
      simp [update_mode]
    · simp [update_mode, h]
  · cases h : F32.ne self.current_temperature v
    · simp [update_current_temp, h]
    · simp [update_current_temp, h, F32.ne_self v hnum]
  · cases h : F32.ne self.target_temperature v
    · simp [update_target_temp, h]
    · simp [update_target_temp, h, F32.ne_self v hnum]

/-- C13 (amended) at a concrete unit: the candidates Heating, Cool and 21.0 on
the unit that is off with no temperature known. -/
theorem C13_gatekeepers_compare_and_set_witness :
    f32_21.isnan = false ∧
      update_mode example_unit CLIMATE_MODE_COOL
        = (true, { example_unit with mode := CLIMATE_MODE_COOL }) ∧
      update_mode (update_mode example_unit CLIMATE_MODE_COOL).2 CLIMATE_MODE_COOL
        = (false, (update_mode example_unit CLIMATE_MODE_COOL).2) ∧
      update_target_temp (update_target_temp example_unit f32_21).2 f32_21
        = (false, (update_target_temp example_unit f32_21).2) :=
  have h := C13_gatekeepers_compare_and_set example_unit CLIMATE_ACTION_HEATING
    CLIMATE_MODE_COOL f32_21 (by decide)
  ⟨by decide, by decide, h.2.1.2.2, h.2.2.2.2.2.2⟩

end gatekeeper_contract

section memory_never_off

/-- The member on_mode_select stores only modes other than Off in
last_active_mode_. -/
theorem on_mode_select_last_active_mode (self : NASA_Climate) (m : ClimateMode)
    (h : self.last_active_mode_ ≠ CLIMATE_MODE_OFF) :
    (on_mode_select self m).1.last_active_mode_ ≠ CLIMATE_MODE_OFF := by
  by_cases hm : m = CLIMATE_MODE_OFF
  · simpa [on_mode_select, update_mode_snd, hm] using h
  · simp [on_mode_select, update_mode_snd, hm]

/-- The mode-select listener body stores only modes other than Off in
last_active_mode_. -/
theorem mode_select_value_last_active_mode (mem : Memory) (self : NASA_Climate) (value : Nat)
    (h : self.last_active_mode_ ≠ CLIMATE_MODE_OFF) :
    (mode_select_value mem self value).1.last_active_mode_ ≠ CLIMATE_MODE_OFF := by
  unfold mode_select_value
  cases hres : mode_select_new_mode mem value with
  | none => exact h
  | some m =>
    have hm := (mode_select_new_mode_text mem value m hres).2
    by_cases hoff : self.mode = CLIMATE_MODE_OFF
    · simpa [hoff] using hm
    · simpa [hoff] using on_mode_select_last_active_mode self m h

/-- C14: last_active_mode_ being different from Off is an invariant: if it
holds before, it holds after on_power with either value, after the mode-select
listener, after on_mode_select with any mode (Off included), after any control
request, and after any temperature, action-code or preset signal. -/
theorem C14_last_active_mode_never_off (set_custom_preset_ : PresetSetter)
    (undefined_int : F32 → Int) (mem : Memory)
    (self : NASA_Climate) (h : self.last_active_mode_ ≠ CLIMATE_MODE_OFF) :
    (∀ state : Bool, (on_power self state).1.last_active_mode_ ≠ CLIMATE_MODE_OFF) ∧
      (∀ (options : List Nat) (index : Nat) (r : NASA_Climate × List Effect),
        mode_select_callback mem options self index = some r →
        r.1.last_active_mode_ ≠ CLIMATE_MODE_OFF) ∧
      (∀ m : ClimateMode, (on_mode_select self m).1.last_active_mode_ ≠ CLIMATE_MODE_OFF) ∧
      (∀ call : ClimateCall,
        (control set_custom_preset_ self call).1.last_active_mode_ ≠ CLIMATE_MODE_OFF) ∧
      (∀ t : F32, (on_target_temp self t).1.last_active_mode_ ≠ CLIMATE_MODE_OFF) ∧
      (∀ t : F32, (on_current_temp self t).1.last_active_mode_ ≠ CLIMATE_MODE_OFF) ∧
      (∀ x : F32,
        (on_action_sens undefined_int self x).1.last_active_mode_ ≠ CLIMATE_MODE_OFF) ∧
      (∀ (state : String) (index : Nat),
        (on_preset_select set_custom_preset_ self state index).1.last_active_mode_
          ≠ CLIMATE_MODE_OFF) ∧
      (∀ (e : Event) (r : NASA_Climate × List Effect),
        deliver set_custom_preset_ undefined_int mem self e = some r →
        r.1.last_active_mode_ ≠ CLIMATE_MODE_OFF) := by
  have hpower : ∀ state : Bool,
      (on_power self state).1.last_active_mode_ ≠ CLIMATE_MODE_OFF := by
    intro state
    cases state
    · by_cases hoff : self.mode = CLIMATE_MODE_OFF
      · simpa [on_power, update_mode_snd, hoff] using h
      · simp [on_power, update_mode_snd, hoff]
    · by_cases hoff : self.mode = CLIMATE_MODE_OFF
      · simpa [on_power, update_mode_snd, hoff] using h
      · simpa [on_power, hoff] using h
  have hselect : ∀ (options : List Nat) (index : Nat) (r : NASA_Climate × List Effect),
      mode_select_callback mem options self index = some r →
      r.1.last_active_mode_ ≠ CLIMATE_MODE_OFF := by
    intro options index r hr
    unfold mode_select_callback at hr
    cases hopt : options[index]? with
    | none => simp [hopt] at hr
    | some value =>
      simp only [hopt, Option.some.injEq] at hr
      subst hr
      exact mode_select_value_last_active_mode mem self value h
  have hcontrol : ∀ call : ClimateCall,
      (control set_custom_preset_ self call).1.last_active_mode_ ≠ CLIMATE_MODE_OFF := by
    intro call
    rw [control_last_active_mode_frame]
    exact h
  have htarget : ∀ t : F32, (on_target_temp self t).1.last_active_mode_ ≠ CLIMATE_MODE_OFF := by
    intro t
    have hframe : (on_target_temp self t).1.last_active_mode_ = self.last_active_mode_ := by
      simp only [on_target_temp, update_target_temp_snd]; split <;> rfl
    rw [hframe]
    exact h
  have hcurrent : ∀ t : F32,
      (on_current_temp self t).1.last_active_mode_ ≠ CLIMATE_MODE_OFF := by
    intro t
    have hframe : (on_current_temp self t).1.last_active_mode_ = self.last_active_mode_ := by
      simp only [on_current_temp, update_current_temp_snd]; split <;> rfl
    rw [hframe]
    exact h
  have haction : ∀ x : F32,
      (on_action_sens undefined_int self x).1.last_active_mode_ ≠ CLIMATE_MODE_OFF := by
    intro x
    rw [(on_action_sens_frame undefined_int self x).2]
    exact h
  have hpreset : ∀ (state : String) (index : Nat),
      (on_preset_select set_custom_preset_ self state index).1.last_active_mode_
        ≠ CLIMATE_MODE_OFF := fun _ _ => h
  refine ⟨hpower, hselect, fun m => on_mode_select_last_active_mode self m h, hcontrol,
    htarget, hcurrent, haction, hpreset, ?_⟩
  intro e r hr
  cases e with
  | power state =>
    simp only [deliver] at hr
    split at hr
    · simp only [Option.some.injEq] at hr
      subst hr
      exact hpower state
    · exact absurd hr (by simp)
  | target_temp state =>
    simp only [deliver] at hr
    split at hr
    · simp only [Option.some.injEq] at hr
      subst hr
      exact htarget state
    · exact absurd hr (by simp)
  | current_temp state =>
    simp only [deliver] at hr
    split at hr
    · simp only [Option.some.injEq] at hr
      subst hr
      exact hcurrent state
    · exact absurd hr (by simp)
  | action_sens state =>
    simp only [deliver] at hr
    split at hr
    · simp only [Option.some.injEq] at hr
      subst hr
      exact haction state
    · exact absurd hr (by simp)
  | preset_select index =>
    simp only [deliver] at hr
    cases hsel : self.select_presets_ with
    | none => simp [hsel] at hr
    | some options =>
      simp only [hsel, select_presets_callback] at hr
      cases hopt : options[index]? with
      | none => simp [hopt] at hr
      | some state =>
        simp only [hopt, Option.some.injEq] at hr
        subst hr
        exact hpreset state index
  | mode_select index =>
    simp only [deliver] at hr
    cases hsel : self.mode_select_ with
    | none => simp [hsel] at hr
    | some options =>
      simp only [hsel] at hr
      exact hselect options index r hr
  | control call =>
    simp only [deliver, Option.some.injEq] at hr
    subst hr
    exact hcontrol call

/-- C14 at a concrete unit: cooling while remembering Heat; after a power-off
signal and after a mode-select signal for Dry last_active_mode_ is not Off. -/
theorem C14_last_active_mode_never_off_witness :
    ({ example_unit with mode := CLIMATE_MODE_COOL } : NASA_Climate).last_active_mode_
        ≠ CLIMATE_MODE_OFF ∧
      (on_power { example_unit with mode := CLIMATE_MODE_COOL } false).1.last_active_mode_
        ≠ CLIMATE_MODE_OFF ∧
      (on_mode_select { example_unit with mode := CLIMATE_MODE_COOL }
        CLIMATE_MODE_OFF).1.last_active_mode_ ≠ CLIMATE_MODE_OFF :=
  have h := C14_last_active_mode_never_off set_custom_preset_spec undefined_int_saturating
    example_memory { example_unit with mode := CLIMATE_MODE_COOL } (by decide)
  ⟨by decide, h.1 false, h.2.2.1 CLIMATE_MODE_OFF⟩

end memory_never_off

section label_translation

/-- The commands of the mode block of control never include a mode-select
call without an option. -/
theorem control_mode_select_has_option (self : NASA_Climate) (call : ClimateCall) :
    mode_select_perform none ∉ (control_mode self call).2.1 := by
  unfold control_mode
  cases call.mode with
  | none => simp
  | some new_mode =>
    simp only [update_mode_snd]
    split
    · split
      · simp
      · rename_i hon
        split
        · simp
        · cases new_mode <;> simp [mode_select_option] at hon ⊢
    · simp

/-- No effect list of control holds a mode-select call without an option:
every mode other than Off has a label in the chain of lines 131-140. -/
theorem control_never_performs_without_option (set_custom_preset_ : PresetSetter)
    (self : NASA_Climate) (call : ClimateCall) :
    mode_select_perform none ∉ (control set_custom_preset_ self call).2 := by
  have h1 := control_mode_select_has_option self call
  have h2 : mode_select_perform none ∉
      (control_target_temp (control_mode self call).1 call).2.1 := by
    unfold control_target_temp
    cases call.target_temperature with
    | none => simp
    | some t => simp only; split <;> simp
  have h3 : mode_select_perform none ∉
      (control_custom_preset set_custom_preset_
        (control_target_temp (control_mode self call).1 call).1 call).2.1 := by
    unfold control_custom_preset
    cases call.custom_preset with
    | none => simp
    | some p => simp only; split <;> simp
  have h4 : ∀ b : Bool, mode_select_perform none ∉ publish_if b := by
    intro b
    cases b <;> simp [publish_if]
  simp only [control, List.mem_append, not_or]
  exact ⟨⟨⟨h1, h2⟩, h3⟩, h4 _⟩

/-- From the listener to control the translation is inverse: the mode the
listener resolves an option to is sent by control as the text of that
option. -/
theorem mode_select_option_of_resolved (mem : Memory) (value : Nat) (m : ClimateMode)
    (h : mode_select_new_mode mem value = some m) :
    mode_select_option m = some (mem.text_at value) := by
  have htext := (mode_select_new_mode_text mem value m h).1
  unfold spec_label_mode at htext
  split at htext
  · rename_i ht; simp only [Option.some.injEq] at htext; subst htext; rw [ht]; decide
  · split at htext
    · rename_i ht; simp only [Option.some.injEq] at htext; subst htext; rw [ht]; decide
    · split at htext
      · rename_i ht; simp only [Option.some.injEq] at htext; subst htext; rw [ht]; decide
      · split at htext
        · rename_i ht; simp only [Option.some.injEq] at htext; subst htext; rw [ht]; decide
        · split at htext
          · rename_i ht; simp only [Option.some.injEq] at htext; subst htext; rw [ht]; decide
          · exact absurd htext (by simp)

/-- C15, the code at a failing input: the unit is off remembering Cool, with a
mode select whose options have the five label texts in storage of their own.
control with mode Heat powers on and sends the label "Heat" to the mode
select; the option with that text (index 0, address 11) is then reported to
the listener, which compares its address with the address of its literal (1)
and takes the unknown-label return: the label control sent is not resolved
back to Heat and last_active_mode_ stays Cool.  Had the option shared the
storage of the literal, the listener would have resolved it to Heat and stored
Heat. -/
theorem C15_sent_label_not_resolved_back :
    control set_custom_preset_spec
        { example_unit_copied with last_active_mode_ := CLIMATE_MODE_COOL }
        ⟨some CLIMATE_MODE_HEAT, none, none⟩
      = ({ example_unit_copied with last_active_mode_ := CLIMATE_MODE_COOL,
                                    mode := CLIMATE_MODE_HEAT },
          [power_turn_on, mode_select_perform (some "Heat"), publish_state]) ∧
    example_memory.text_at 11 = "Heat" ∧
    mode_select_new_mode example_memory 11 = none ∧
    mode_select_callback example_memory [11, 12, 13, 14, 15]
        { example_unit_copied with last_active_mode_ := CLIMATE_MODE_COOL,
                                   mode := CLIMATE_MODE_HEAT } 0
      = some ({ example_unit_copied with last_active_mode_ := CLIMATE_MODE_COOL,
                                         mode := CLIMATE_MODE_HEAT }, []) ∧
    mode_select_new_mode example_memory 1 = some CLIMATE_MODE_HEAT ∧
    mode_select_callback example_memory [1, 2, 3, 4, 5]
        { example_unit with last_active_mode_ := CLIMATE_MODE_COOL,
                            mode := CLIMATE_MODE_HEAT } 0
      = some ({ example_unit with last_active_mode_ := CLIMATE_MODE_HEAT,
                                  mode := CLIMATE_MODE_HEAT }, []) := by
  refine ⟨by decide, by decide, by decide, by decide, by decide, by decide⟩

end label_translation

section control_aggregation

/-- With the three outbound entities wired and a setter that reports a change
exactly when the requested label is not the current custom preset, control
sets its update flag exactly when some requested value differs from the
current one. -/
theorem control_flags_iff_requested_differs (set_custom_preset_ : PresetSetter)
    (self : NASA_Climate) (call : ClimateCall)
    (hsetter : ∀ c p v, (set_custom_preset_ c p v).1 = true ↔ c ≠ some v)
    (hpower : self.power_ = true) (htarget : self.target_temp_ = true)
    (hpreset : self.select_presets_.isSome = true) :
    ((control_mode self call).2.2 ||
        (control_target_temp (control_mode self call).1 call).2.2 ||
        (control_custom_preset set_custom_preset_
          (control_target_temp (control_mode self call).1 call).1 call).2.2) = true ↔
      ((∃ m, call.mode = some m ∧ self.mode ≠ m) ∨
        (∃ t, call.target_temperature = some t ∧ F32.ne self.target_temperature t = true) ∨
        (∃ p, call.custom_preset = some p ∧ self.custom_preset ≠ some p)) := by
  rw [control_flags]
  obtain ⟨mode, target, custom⟩ := call
  cases mode <;> cases target <;> cases custom <;>
    simp [hpower, htarget, hpreset, hsetter, or_assoc]

/-- C16: a single control call never publishes more than once; and with the
power, target-temperature and preset-select entities all wired (and a setter
that reports a change exactly when the requested label is not the current
custom preset), control publishes exactly once if at least one requested value
differs from the corresponding current field and not at all otherwise.  A
requested temperature differs when the C++ comparison with the stored one says
so. -/
theorem C16_control_publishes_once (set_custom_preset_ : PresetSetter)
    (self : NASA_Climate) (call : ClimateCall) :
    publishes (control set_custom_preset_ self call).2 ≤ 1 ∧
      ((∀ c p v, (set_custom_preset_ c p v).1 = true ↔ c ≠ some v) →
        self.power_ = true → self.target_temp_ = true → self.select_presets_.isSome = true →
        (publishes (control set_custom_preset_ self call).2 = 1 ↔
          ((∃ m, call.mode = some m ∧ self.mode ≠ m) ∨
            (∃ t, call.target_temperature = some t ∧
              F32.ne self.target_temperature t = true) ∨
            (∃ p, call.custom_preset = some p ∧ self.custom_preset ≠ some p))) ∧
        (publishes (control set_custom_preset_ self call).2 = 0 ↔
          ¬ ((∃ m, call.mode = some m ∧ self.mode ≠ m) ∨
            (∃ t, call.target_temperature = some t ∧
              F32.ne self.target_temperature t = true) ∨
            (∃ p, call.custom_preset = some p ∧ self.custom_preset ≠ some p)))) := by
  constructor
  · rw [control_publishes]
    split <;> simp
  · intro hsetter hpower htarget hpreset
    have hflags := control_flags_iff_requested_differs set_custom_preset_ self call hsetter
      hpower htarget hpreset
    rw [control_publishes, ← hflags]
    constructor
    · split <;> simp_all
    · split <;> simp_all

/-- C16 at a concrete unit: a request for the mode the unit already has (Off)
together with the new target 21.0 publishes once; a request repeating only the
current mode publishes nothing. -/
theorem C16_control_publishes_once_witness :
    example_unit.power_ = true ∧ example_unit.target_temp_ = true ∧
      example_unit.select_presets_.isSome = true ∧
      publishes (control set_custom_preset_spec example_unit
        ⟨some CLIMATE_MODE_OFF, some f32_21, none⟩).2 = 1 ∧
      publishes (control set_custom_preset_spec example_unit
        ⟨some CLIMATE_MODE_OFF, none, none⟩).2 = 0 :=
  have hspec : ∀ c p v, (set_custom_preset_spec c p v).1 = true ↔ c ≠ some v := by
    intro c p v
    unfold set_custom_preset_spec
    by_cases h : c = some v <;> simp [h]
  ⟨by decide, by decide, by decide,
    (((C16_control_publishes_once set_custom_preset_spec example_unit
        ⟨some CLIMATE_MODE_OFF, some f32_21, none⟩).2 hspec (by decide) (by decide)
        (by decide)).1).mpr (Or.inr (Or.inl ⟨f32_21, rfl, by decide⟩)),
    (((C16_control_publishes_once set_custom_preset_spec example_unit
        ⟨some CLIMATE_MODE_OFF, none, none⟩).2 hspec (by decide) (by decide)
        (by decide)).2).mpr (by simp [example_unit])⟩

end control_aggregation

section listeners_are_silent

/-- C17: no inbound listener issues an outbound command: whatever the state
and the input, every effect of on_power, on_target_temp, on_current_temp,
on_action_sens, on_preset_select, on_mode_select, the mode-select listener and
the preset-select listener is a publish_state; control does issue commands
(for instance a power turn_on for a mode request on a wired unit). -/
theorem C17_listeners_issue_no_commands (set_custom_preset_ : PresetSetter)
    (undefined_int : F32 → Int) (mem : Memory) (self : NASA_Climate) :
    (∀ (state : Bool), ∀ e ∈ (on_power self state).2, e = publish_state) ∧
      (∀ (t : F32), ∀ e ∈ (on_target_temp self t).2, e = publish_state) ∧
      (∀ (t : F32), ∀ e ∈ (on_current_temp self t).2, e = publish_state) ∧
      (∀ (x : F32), ∀ e ∈ (on_action_sens undefined_int self x).2, e = publish_state) ∧
      (∀ (state : String) (index : Nat),
        ∀ e ∈ (on_preset_select set_custom_preset_ self state index).2, e = publish_state) ∧
      (∀ (m : ClimateMode), ∀ e ∈ (on_mode_select self m).2, e = publish_state) ∧
      (∀ (options : List Nat) (index : Nat) (r : NASA_Climate × List Effect),
        mode_select_callback mem options self index = some r →
        ∀ e ∈ r.2, e = publish_state) ∧
      (∀ (options : List String) (index : Nat) (r : NASA_Climate × List Effect),
        select_presets_callback set_custom_preset_ options self index = some r →
        ∀ e ∈ r.2, e = publish_state) ∧
      power_turn_on ∈ (control set_custom_preset_spec example_unit
        ⟨some CLIMATE_MODE_HEAT, none, none⟩).2 := by
  have hpub : ∀ (b : Bool), ∀ e ∈ publish_if b, e = publish_state := by
    intro b e he
    cases b <;> simp [publish_if] at he
    exact he
  have hmode : ∀ (m : ClimateMode), ∀ e ∈ (on_mode_select self m).2, e = publish_state :=
    fun m => hpub _
  have hloop : ∀ (x : F32) (map : List (Int × ClimateAction)),
      ∀ e ∈ (on_action_sens_loop undefined_int self x map).2, e = publish_state := by
    intro x map
    induction map with
    | nil => simp [on_action_sens_loop]
    | cons entry rest ih =>
      obtain ⟨key, value⟩ := entry
      by_cases hkey : static_cast_int_on undefined_int x = key
      · simp only [on_action_sens_loop, hkey, if_true]
        exact hpub _
      · simp only [on_action_sens_loop, hkey, if_false]
        exact ih
  refine ⟨?_, fun t => hpub _, fun t => hpub _, ?_, fun state index => hpub _, hmode, ?_, ?_,
    by decide⟩
  · intro state
    cases state
    · exact hpub _
    · unfold on_power
      by_cases hoff : self.mode = CLIMATE_MODE_OFF
      · simp only [hoff, if_true]
        exact hpub _
      · simp [hoff]
  · intro x
    unfold on_action_sens
    cases self.mappings_ with
    | none => simp
    | some map => exact hloop x map
  · intro options index r hr
    unfold mode_select_callback at hr
    cases hopt : options[index]? with
    | none => simp [hopt] at hr
    | some value =>
      simp only [hopt, Option.some.injEq] at hr
      subst hr
      unfold mode_select_value
      cases mode_select_new_mode mem value with
      | none => simp
      | some m =>
        by_cases hoff : self.mode = CLIMATE_MODE_OFF
        · simp [hoff]
        · simp only [hoff, if_false]
          exact hmode m
  · intro options index r hr
    unfold select_presets_callback at hr
    cases hopt : options[index]? with
    | none => simp [hopt] at hr
    | some state =>
      simp only [hopt, Option.some.injEq] at hr
      subst hr
      exact hpub _

/-- C17 at a concrete unit: the mode-select index 1 and the preset-select
index 0 reach the example unit; the only effect is a publish_state, or
nothing. -/
theorem C17_listeners_issue_no_commands_witness :
    mode_select_callback example_memory [1, 2, 3, 4, 5] example_unit 1
        = some ({ example_unit with last_active_mode_ := CLIMATE_MODE_COOL }, []) ∧
      (∀ e ∈ ([] : List Effect), e = publish_state) ∧
      select_presets_callback set_custom_preset_spec ["Eco", "Comfort"] example_unit 0
        = some ({ example_unit with custom_preset := some "Eco" }, [publish_state]) ∧
      (∀ e ∈ [publish_state], e = publish_state) :=
  have h := C17_listeners_issue_no_commands set_custom_preset_spec undefined_int_saturating
    example_memory example_unit
  ⟨by decide,
    h.2.2.2.2.2.2.1 [1, 2, 3, 4, 5] 1
      ({ example_unit with last_active_mode_ := CLIMATE_MODE_COOL }, []) (by decide),
    by decide,
    h.2.2.2.2.2.2.2.1 ["Eco", "Comfort"] 0
      ({ example_unit with custom_preset := some "Eco" }, [publish_state]) (by decide)⟩

end listeners_are_silent

end samsung_nasa
